import Mathlib

/-! # mongo_utils: a shallow embedding of `src/mongo_utils.c`

The three functions of `mongo_utils.c` (`mongo_init`, `mongo_save_address`,
`mongo_cleanup`) are thin sequential wrappers around the MongoDB C driver.
The driver is external to the repository, so it appears here as a record of
response functions (`mongoc_driver`); every call the wrapper makes to the
driver is recorded, in order and with its arguments, in a list of
`mongoc_call` events.

* A C pointer is an `Option`: `none` is `NULL`.
* A driver handle (`mongoc_client_t *` and friends) is a natural number; the
  four handle kinds are kept apart by the constructors of `mongoc_call`.
* `fprintf (stderr, ...)` diagnostics are not part of the model.
-/

namespace MongoUtils

/-! ## Data model (`mongo_utils.h`) -/

/-- Identity of a `mongoc_uri_t` object handed out by the driver. -/
abbrev mongoc_uri_t := Nat
/-- Identity of a `mongoc_client_t` object handed out by the driver. -/
abbrev mongoc_client_t := Nat
/-- Identity of a `mongoc_database_t` object handed out by the driver. -/
abbrev mongoc_database_t := Nat
/-- Identity of a `mongoc_collection_t` object handed out by the driver. -/
abbrev mongoc_collection_t := Nat

/-- The values that `BCON_UTF8` and `BCON_INT32` put in a document. -/
inductive bson_value where
  | utf8 (s : String)
  | int32 (n : Int)
deriving DecidableEq, Repr

/-- A BSON document: its fields, in the order they were appended. -/
structure bson_t where
  fields : List (String × bson_value)
deriving DecidableEq, Repr

/-- The struct `mongo_context_t` of `mongo_utils.h`, field for field. -/
structure mongo_context_t where
  client : Option mongoc_client_t
  collection : Option mongoc_collection_t
  uri : Option String
  db_name : Option String
  collection_name : Option String
deriving DecidableEq, Repr

/-! ## The driver -/

/-- One call made to libmongoc / libbson: its arguments and, for a call whose
result the wrapper can see, the value the driver returned. -/
inductive mongoc_call where
  | mongoc_init
  | mongoc_cleanup
  | uri_new_with_error (uri : String) (result : Option mongoc_uri_t)
  | uri_set_option_as_int32 (u : mongoc_uri_t) (option : String) (value : Int)
  | uri_set_option_as_bool (u : mongoc_uri_t) (option : String) (value : Bool)
  | client_new_from_uri (u : mongoc_uri_t) (result : Option mongoc_client_t)
  | uri_destroy (u : mongoc_uri_t)
  | client_command_simple (c : mongoc_client_t) (db : String) (command : Option bson_t)
      (result : Bool)
  | client_destroy (c : mongoc_client_t)
  | client_get_database (c : mongoc_client_t) (name : String)
      (result : Option mongoc_database_t)
  | database_get_collection (d : mongoc_database_t) (name : String)
      (result : Option mongoc_collection_t)
  | database_destroy (d : mongoc_database_t)
  | collection_insert_one (col : mongoc_collection_t) (document : Option bson_t)
      (result : Bool)
  | collection_delete_one (col : mongoc_collection_t) (selector : Option bson_t)
      (result : Bool)
  | collection_destroy (col : mongoc_collection_t)
  | bcon_new (fields : List (String × bson_value)) (result : Option bson_t)
  | bson_destroy (document : Option bson_t)
deriving DecidableEq, Repr

/-- What the driver answers during one call of the wrapper. Every function
that returns a pointer may return `NULL`, every function that returns `bool`
may return `false`; the answers may depend on the arguments. -/
structure mongoc_driver where
  mongoc_uri_new_with_error : String → Option mongoc_uri_t
  mongoc_client_new_from_uri : mongoc_uri_t → Option mongoc_client_t
  mongoc_client_command_simple : mongoc_client_t → String → Option bson_t → Bool
  mongoc_client_get_database : mongoc_client_t → String → Option mongoc_database_t
  mongoc_database_get_collection : mongoc_database_t → String → Option mongoc_collection_t
  mongoc_collection_insert_one : mongoc_collection_t → Option bson_t → Bool
  mongoc_collection_delete_one : mongoc_collection_t → Option bson_t → Bool

/-- Modelled from the spec: the `BCON_NEW` macro belongs to libbson, which is
not part of this repository. The spec's step "construct the record" has no
failure outcome (libbson allocates with an aborting allocator), so the macro
always yields a pointer to a document holding the given fields in order. -/
def BCON_NEW (fields : List (String × bson_value)) : Option bson_t :=
  some ⟨fields⟩

/-- What a call of one of the three wrapper functions leaves behind: the
returned `int` (0 for the `void` function), the context the pointer `ctx`
points to afterwards (`none` when `ctx` is `NULL`), and the driver calls made,
oldest first. -/
structure outcome where
  ret : Int
  ctx : Option mongo_context_t
  calls : List mongoc_call
deriving DecidableEq, Repr

/-! ## `mongo_init` (mongo_utils.c, lines 5-101) -/

/-- The ping command document built on line 47. -/
def ping_fields : List (String × bson_value) :=
  [("ping", bson_value.int32 1)]

/-- The probe document built on line 81. -/
def probe_fields : List (String × bson_value) :=
  [("_id", bson_value.utf8 "test"), ("test", bson_value.utf8 "test")]

/-- The selector built on line 94 to delete the probe document. -/
def delete_fields : List (String × bson_value) :=
  [("_id", bson_value.utf8 "test")]

/-- The function `mongo_init`. -/
def mongo_init (drv : mongoc_driver) (ctx : Option mongo_context_t)
    (uri db_name collection_name : Option String) : outcome :=
  match ctx, uri, db_name, collection_name with
  | some _, some uri, some db_name, some collection_name =>
    -- mongoc_init(); memset(ctx, 0, sizeof ...); ctx->uri = uri; ...
    let ctx0 : mongo_context_t :=
      { client := none, collection := none,
        uri := some uri, db_name := some db_name, collection_name := some collection_name }
    let t0 := [mongoc_call.mongoc_init,
               mongoc_call.uri_new_with_error uri (drv.mongoc_uri_new_with_error uri)]
    match drv.mongoc_uri_new_with_error uri with
    | none => ⟨0, some ctx0, t0⟩
    | some uri_obj =>
      -- ctx->client = mongoc_client_new_from_uri(uri_obj); mongoc_uri_destroy(uri_obj);
      let t1 := t0 ++
        [mongoc_call.uri_set_option_as_int32 uri_obj "serverSelectionTimeoutMS" 5000,
         mongoc_call.uri_set_option_as_bool uri_obj "retryWrites" true,
         mongoc_call.client_new_from_uri uri_obj (drv.mongoc_client_new_from_uri uri_obj),
         mongoc_call.uri_destroy uri_obj]
      match drv.mongoc_client_new_from_uri uri_obj with
      | none => ⟨0, some ctx0, t1⟩
      | some client =>
        let ctx1 : mongo_context_t := { ctx0 with client := some client }
        let command := BCON_NEW ping_fields
        let retval := drv.mongoc_client_command_simple client "admin" command
        let t2 := t1 ++
          [mongoc_call.bcon_new ping_fields command,
           mongoc_call.client_command_simple client "admin" command retval,
           mongoc_call.bson_destroy command]
        if retval = false then
          ⟨0, some { ctx1 with client := none }, t2 ++ [mongoc_call.client_destroy client]⟩
        else
          let t3 := t2 ++
            [mongoc_call.client_get_database client db_name
              (drv.mongoc_client_get_database client db_name)]
          match drv.mongoc_client_get_database client db_name with
          | none =>
            ⟨0, some { ctx1 with client := none }, t3 ++ [mongoc_call.client_destroy client]⟩
          | some database =>
            -- ctx->collection = mongoc_database_get_collection(...);
            -- mongoc_database_destroy(database);
            let t4 := t3 ++
              [mongoc_call.database_get_collection database collection_name
                (drv.mongoc_database_get_collection database collection_name),
               mongoc_call.database_destroy database]
            match drv.mongoc_database_get_collection database collection_name with
            | none =>
              ⟨0, some { ctx1 with collection := none, client := none },
                t4 ++ [mongoc_call.client_destroy client]⟩
            | some collection =>
              let ctx2 : mongo_context_t := { ctx1 with collection := some collection }
              let test_doc := BCON_NEW probe_fields
              let inserted := drv.mongoc_collection_insert_one collection test_doc
              let t5 := t4 ++
                [mongoc_call.bcon_new probe_fields test_doc,
                 mongoc_call.collection_insert_one collection test_doc inserted]
              if inserted = false then
                ⟨0, some { ctx2 with collection := none, client := none },
                  t5 ++ [mongoc_call.bson_destroy test_doc,
                         mongoc_call.collection_destroy collection,
                         mongoc_call.client_destroy client]⟩
              else
                let delete_query := BCON_NEW delete_fields
                -- the bool returned by mongoc_collection_delete_one is discarded
                ⟨1, some ctx2,
                  t5 ++ [mongoc_call.bcon_new delete_fields delete_query,
                         mongoc_call.collection_delete_one collection delete_query
                           (drv.mongoc_collection_delete_one collection delete_query),
                         mongoc_call.bson_destroy delete_query,
                         mongoc_call.bson_destroy test_doc]⟩
  | _, _, _, _ => ⟨0, ctx, []⟩

/-! ## `mongo_cleanup` (mongo_utils.c, lines 148-160) -/

/-- The function `mongo_cleanup`; `ret` is 0 as the function is `void`. -/
def mongo_cleanup (ctx : Option mongo_context_t) : outcome :=
  match ctx with
  | none => ⟨0, none, []⟩
  | some c =>
    let t1 := match c.collection with
      | some collection => [mongoc_call.collection_destroy collection]
      | none => []
    let c1 : mongo_context_t := { c with collection := none }
    let t2 := match c1.client with
      | some client => t1 ++ [mongoc_call.client_destroy client]
      | none => t1
    let c2 : mongo_context_t := { c1 with client := none }
    ⟨0, some c2, t2 ++ [mongoc_call.mongoc_cleanup]⟩

/-! ## The C library clock used by `mongo_save_address` -/

/-- The fields of `struct tm` that the format string reads, as C `int`s. -/
structure tm where
  tm_sec : Int
  tm_min : Int
  tm_hour : Int
  tm_mday : Int
  tm_mon : Int
  tm_year : Int
deriving DecidableEq, Repr

/-- Modelled from the spec: part of `gmtime` of the C library. The year that
starts on 1 March and the day within it (0 is 1 March) of a
day counted from 0000-03-01 in the proleptic Gregorian calendar: 400-year
cycles of 146097 days, centuries of 36524 days, four-year groups of 1461
days, years of 365 days; the leap day closes its group, century and cycle. -/
def march_year (z : Int) : Int × Int :=
  let era := z / 146097
  let doe := z % 146097
  let c := min (doe / 36524) 3
  let doc := doe - 36524 * c
  let q := doc / 1461
  let doq := doc % 1461
  let yq := min (doq / 365) 3
  (400 * era + 100 * c + 4 * q + yq, doq - 365 * yq)

/-- Modelled from the spec: part of `gmtime` of the C library. The calendar
year, month (1 to 12) and day of the month of a day counted from 0000-03-01. -/
def civil_from_days (z : Int) : Int × Int × Int :=
  let y := (march_year z).1
  let doy := (march_year z).2
  let mp := (5 * doy + 2) / 153
  let d := doy - (153 * mp + 2) / 5 + 1
  let m := if mp < 10 then mp + 3 else mp - 9
  (if m ≤ 2 then y + 1 else y, m, d)

/-- Modelled from the spec: `gmtime` of the C library (not part of this
repository): the proleptic Gregorian calendar date and the time of day of an
instant counted in seconds from 1970-01-01 00:00:00, with `tm_mon` counted
from 0 and `tm_year` from 1900. -/
def gmtime (t : Int) : tm :=
  let date := civil_from_days (t / 86400 + 719468)
  let rem := t % 86400
  { tm_sec := rem % 60, tm_min := rem / 60 % 60, tm_hour := rem / 3600,
    tm_mday := date.2.2, tm_mon := date.2.1 - 1, tm_year := date.1 - 1900 }

/-- The clock of the machine the program runs on: the reading `time (&now)`
stores, and the offset of local time from UTC, in seconds, that the time zone
rules put in force at each instant. -/
structure libc_clock where
  now : Int
  utc_offset : Int → Int

/-- Modelled from the spec: `localtime` of the C library (not part of this
repository): the "local clock" of the spec, the calendar reading of the
instant shifted by the offset in force at that instant. -/
def localtime (utc_offset : Int → Int) (t : Int) : tm :=
  gmtime (t + utc_offset t)

/-- Modelled from the spec: a number conversion of `strftime` of the C
library (not part of this repository): decimal digits, zero-padded on the left
to `width`, with a minus sign for a negative value. -/
def conv_number (width : Nat) (n : Int) : List Char :=
  let ds := Nat.toDigits 10 n.natAbs
  let padded := List.replicate (width - ds.length) '0' ++ ds
  if n < 0 then '-' :: padded else padded

/-- Modelled from the spec: the text `strftime` of the C library (not part
of this repository) produces for the format `"%Y-%m-%d %H:%M:%S"` of line 115,
the `YYYY-MM-DD HH:MM:SS` of the spec. -/
def strftime_Y_m_d_H_M_S (t : tm) : String :=
  String.mk (conv_number 1 (t.tm_year + 1900) ++ '-' :: conv_number 2 (t.tm_mon + 1)
    ++ '-' :: conv_number 2 t.tm_mday ++ ' ' :: conv_number 2 t.tm_hour
    ++ ':' :: conv_number 2 t.tm_min ++ ':' :: conv_number 2 t.tm_sec)

/-- The string left in `char timestamp[32]` by lines 114-115:
`time (&now); strftime (timestamp, sizeof (timestamp), ..., localtime (&now))`. -/
def created_at (clk : libc_clock) : String :=
  strftime_Y_m_d_H_M_S (localtime clk.utc_offset clk.now)

/-! ## `mongo_save_address` (mongo_utils.c, lines 103-146) -/

/-- The four fields of the record, in the order `BCON_NEW` receives them. -/
def address_fields (address : String) (private_key : Option String) (pattern timestamp : String) :
    List (String × bson_value) :=
  [("address", bson_value.utf8 address),
   ("private_key", bson_value.utf8 (match private_key with | some k => k | none => "")),
   ("pattern", bson_value.utf8 pattern),
   ("created_at", bson_value.utf8 timestamp)]

/-- The function `mongo_save_address`. -/
def mongo_save_address (drv : mongoc_driver) (clk : libc_clock) (ctx : Option mongo_context_t)
    (address private_key pattern : Option String) : outcome :=
  match ctx with
  | none => ⟨0, ctx, []⟩
  | some c =>
    match c.collection with
    | none => ⟨0, ctx, []⟩
    | some collection =>
      -- time(&now); strftime(timestamp, sizeof(timestamp), ..., localtime(&now));
      let timestamp := created_at clk
      match address, pattern with
      | some address, some pattern =>
        let fields := address_fields address private_key pattern timestamp
        let doc := BCON_NEW fields
        match doc with
        | none => ⟨0, ctx, [mongoc_call.bcon_new fields doc]⟩
        | some _ =>
          let inserted := drv.mongoc_collection_insert_one collection doc
          if inserted = false then
            ⟨0, ctx, [mongoc_call.bcon_new fields doc,
                      mongoc_call.collection_insert_one collection doc inserted,
                      mongoc_call.bson_destroy doc]⟩
          else
            ⟨1, ctx, [mongoc_call.bcon_new fields doc,
                      mongoc_call.collection_insert_one collection doc inserted,
                      mongoc_call.bson_destroy doc]⟩
      | _, _ => ⟨0, ctx, []⟩

/-! ## Sequences of calls in one process -/

/-- One call of the public interface, with the pointer `ctx` (an index into
the contexts of the process, or `NULL`), the other arguments, and the answers
the driver and the clock give during that call. -/
inductive api_call where
  | init (drv : mongoc_driver) (ctx : Option Nat) (uri db_name collection_name : Option String)
  | save (drv : mongoc_driver) (clk : libc_clock) (ctx : Option Nat)
      (address private_key pattern : Option String)
  | cleanup (ctx : Option Nat)

/-- A process: the `mongo_context_t` objects it owns, by index, and all the
driver calls made so far, oldest first. -/
structure process where
  heap : Nat → mongo_context_t
  calls : List mongoc_call

/-- Reading through a context pointer. -/
def deref (heap : Nat → mongo_context_t) (p : Option Nat) : Option mongo_context_t :=
  match p with
  | some i => some (heap i)
  | none => none

/-- Writing back what a call left in the context a pointer points to. -/
def store (heap : Nat → mongo_context_t) (p : Option Nat) (c : Option mongo_context_t) :
    Nat → mongo_context_t :=
  match p, c with
  | some i, some c => Function.update heap i c
  | _, _ => heap

/-- The outcome of one interface call on the current contexts. -/
def api_call.outcome (heap : Nat → mongo_context_t) : api_call → MongoUtils.outcome
  | api_call.init drv p uri db_name collection_name =>
    mongo_init drv (deref heap p) uri db_name collection_name
  | api_call.save drv clk p address private_key pattern =>
    mongo_save_address drv clk (deref heap p) address private_key pattern
  | api_call.cleanup p => mongo_cleanup (deref heap p)

/-- The context pointer an interface call is given. -/
def api_call.ctx : api_call → Option Nat
  | api_call.init _ p _ _ _ => p
  | api_call.save _ _ p _ _ _ => p
  | api_call.cleanup p => p

/-- One interface call made by the process. -/
def step (s : process) (a : api_call) : process :=
  let o := a.outcome s.heap
  ⟨store s.heap a.ctx o.ctx, s.calls ++ o.calls⟩

/-- A sequence of interface calls, made one after the other. -/
def run (s : process) (l : List api_call) : process :=
  l.foldl step s

/-- A context as a caller declares it before the first `mongo_init`: all
five fields empty. -/
def empty_context : mongo_context_t :=
  ⟨none, none, none, none, none⟩

/-- A driver for which every call succeeds; it hands out the handles
`u`, `c`, `d` and `col`. -/
def driver_ok (u c d col : Nat) : mongoc_driver :=
  ⟨fun _ => some u, fun _ => some c, fun _ _ _ => true, fun _ _ => some d,
   fun _ _ => some col, fun _ _ => true, fun _ _ => true⟩

/-! ## The paths through `mongo_init` -/

/-- The context `mongo_init` leaves on each of its failing paths. -/
def failed_context (u d n : String) : mongo_context_t :=
  ⟨none, none, some u, some d, some n⟩

/-- The driver calls up to and including the destruction of the URI object. -/
def calls_uri (u : String) (uri_obj : Nat) (r : Option Nat) : List mongoc_call :=
  [mongoc_call.mongoc_init,
   mongoc_call.uri_new_with_error u (some uri_obj),
   mongoc_call.uri_set_option_as_int32 uri_obj "serverSelectionTimeoutMS" 5000,
   mongoc_call.uri_set_option_as_bool uri_obj "retryWrites" true,
   mongoc_call.client_new_from_uri uri_obj r,
   mongoc_call.uri_destroy uri_obj]

/-- The driver calls of the ping. -/
def calls_ping (client : Nat) (r : Bool) : List mongoc_call :=
  [mongoc_call.bcon_new ping_fields (BCON_NEW ping_fields),
   mongoc_call.client_command_simple client "admin" (BCON_NEW ping_fields) r,
   mongoc_call.bson_destroy (BCON_NEW ping_fields)]

/-- The driver calls that fetch the collection handle. -/
def calls_collection (database : Nat) (n : String) (r : Option Nat) : List mongoc_call :=
  [mongoc_call.database_get_collection database n r,
   mongoc_call.database_destroy database]

/-- The driver calls of the probe insert. -/
def calls_probe (collection : Nat) (r : Bool) : List mongoc_call :=
  [mongoc_call.bcon_new probe_fields (BCON_NEW probe_fields),
   mongoc_call.collection_insert_one collection (BCON_NEW probe_fields) r]

/-- The six gates of `mongo_init`, in the order the function tries them, with
the handles the driver returns on the way: the URI parses, the client is
constructed, the ping succeeds, the database handle and then the collection
handle are obtained, and the probe insert succeeds. -/
def gates_pass (drv : mongoc_driver) (u d n : String)
    (uri_obj client database collection : Nat) : Prop :=
  drv.mongoc_uri_new_with_error u = some uri_obj ∧
  drv.mongoc_client_new_from_uri uri_obj = some client ∧
  drv.mongoc_client_command_simple client "admin" (BCON_NEW ping_fields) = true ∧
  drv.mongoc_client_get_database client d = some database ∧
  drv.mongoc_database_get_collection database n = some collection ∧
  drv.mongoc_collection_insert_one collection (BCON_NEW probe_fields) = true

/-! ## Handles handed out and handles destroyed, read off a list of driver calls -/

/-- The URI objects the driver returned, in order. -/
def uris_handed_out (calls : List mongoc_call) : List mongoc_uri_t :=
  calls.filterMap fun e =>
    match e with
    | mongoc_call.uri_new_with_error _ r => r
    | _ => none

/-- The client handles the driver returned, in order. -/
def clients_handed_out (calls : List mongoc_call) : List mongoc_client_t :=
  calls.filterMap fun e =>
    match e with
    | mongoc_call.client_new_from_uri _ r => r
    | _ => none

/-- The database handles the driver returned, in order. -/
def databases_handed_out (calls : List mongoc_call) : List mongoc_database_t :=
  calls.filterMap fun e =>
    match e with
    | mongoc_call.client_get_database _ _ r => r
    | _ => none

/-- The collection handles the driver returned, in order. -/
def collections_handed_out (calls : List mongoc_call) : List mongoc_collection_t :=
  calls.filterMap fun e =>
    match e with
    | mongoc_call.database_get_collection _ _ r => r
    | _ => none

/-- The URI objects passed to `mongoc_uri_destroy`, in order. -/
def uris_destroyed (calls : List mongoc_call) : List mongoc_uri_t :=
  calls.filterMap fun e =>
    match e with
    | mongoc_call.uri_destroy h => some h
    | _ => none

/-- The client handles passed to `mongoc_client_destroy`, in order. -/
def clients_destroyed (calls : List mongoc_call) : List mongoc_client_t :=
  calls.filterMap fun e =>
    match e with
    | mongoc_call.client_destroy h => some h
    | _ => none

/-- The database handles passed to `mongoc_database_destroy`, in order. -/
def databases_destroyed (calls : List mongoc_call) : List mongoc_database_t :=
  calls.filterMap fun e =>
    match e with
    | mongoc_call.database_destroy h => some h
    | _ => none

/-- The collection handles passed to `mongoc_collection_destroy`, in order. -/
def collections_destroyed (calls : List mongoc_call) : List mongoc_collection_t :=
  calls.filterMap fun e =>
    match e with
    | mongoc_call.collection_destroy h => some h
    | _ => none

/-- A driver that cannot parse the URI. -/
def driver_bad_uri : mongoc_driver :=
  ⟨fun _ => none, fun _ => some 2, fun _ _ _ => true, fun _ _ => some 3,
   fun _ _ => some 4, fun _ _ => true, fun _ _ => true⟩

/-- A driver that connects and hands out the handles 1, 2, 3 and 4, but
rejects every insert. -/
def driver_read_only : mongoc_driver :=
  ⟨fun _ => some 1, fun _ => some 2, fun _ _ _ => true, fun _ _ => some 3,
   fun _ _ => some 4, fun _ _ => false, fun _ _ => true⟩





/-- The insert attempts among a list of driver calls: the collection handle
and the document of each `mongoc_collection_insert_one`, in order. -/
def insert_attempts (calls : List mongoc_call) :
    List (mongoc_collection_t × Option bson_t) :=
  calls.filterMap fun e =>
    match e with
    | mongoc_call.collection_insert_one col doc _ => some (col, doc)
    | _ => none

/-- A clock that reads 0 (1970-01-01 00:00:00) in a zone without offset. -/
def clock_epoch : libc_clock :=
  ⟨0, fun _ => 0⟩

/-- A context as a successful `mongo_init` leaves it, with the client 2 and
the collection 4. -/
def live_context : mongo_context_t :=
  ⟨some 2, some 4, some "mongodb://localhost", some "db", some "addresses"⟩

/-- An interface call that reaches `mongoc_init ()`: a `mongo_init` whose
four pointer arguments are all non-null. -/
def api_call.reaches_mongoc_init : api_call → Bool
  | api_call.init _ (some _) (some _) (some _) (some _) => true
  | _ => false

/-- An interface call that reaches `mongoc_cleanup ()`: a `mongo_cleanup`
whose context pointer is non-null. -/
def api_call.reaches_mongoc_cleanup : api_call → Bool
  | api_call.cleanup (some _) => true
  | _ => false

/-- A process that has made no call yet; all its contexts are empty. -/
def fresh_process : process :=
  ⟨fun _ => empty_context, []⟩



/-- The order of two calendar readings: by year, then month, day, hour,
minute and second. -/
def tm_lt (a b : tm) : Prop :=
  a.tm_year < b.tm_year ∨ (a.tm_year = b.tm_year ∧
  (a.tm_mon < b.tm_mon ∨ (a.tm_mon = b.tm_mon ∧
  (a.tm_mday < b.tm_mday ∨ (a.tm_mday = b.tm_mday ∧
  (a.tm_hour < b.tm_hour ∨ (a.tm_hour = b.tm_hour ∧
  (a.tm_min < b.tm_min ∨ (a.tm_min = b.tm_min ∧ a.tm_sec < b.tm_sec)))))))))

/-- The two decimal digits of a number below 100. -/
def two_digits (k : Nat) : List Char :=
  [Nat.digitChar (k / 10), Nat.digitChar (k % 10)]

/-- The four decimal digits of a number below 10000. -/
def four_digits (k : Nat) : List Char :=
  [Nat.digitChar (k / 1000), Nat.digitChar (k / 100 % 10), Nat.digitChar (k / 10 % 10),
   Nat.digitChar (k % 10)]

/-- The ranges of the fields of a calendar reading for which the timestamp
has its fixed width: a year from 1000 to 9999, and the ranges the C standard
gives the other fields. -/
def tm_in_range (a : tm) : Prop :=
  1000 ≤ a.tm_year + 1900 ∧ a.tm_year + 1900 ≤ 9999 ∧
  0 ≤ a.tm_mon ∧ a.tm_mon ≤ 11 ∧ 1 ≤ a.tm_mday ∧ a.tm_mday ≤ 31 ∧
  0 ≤ a.tm_hour ∧ a.tm_hour ≤ 23 ∧ 0 ≤ a.tm_min ∧ a.tm_min ≤ 59 ∧
  0 ≤ a.tm_sec ∧ a.tm_sec ≤ 60

/-- The fixed format `YYYY-MM-DD HH:MM:SS`: exactly 19 characters, decimal
digits everywhere except `-` at positions 4 and 7, a blank at position 10 and
`:` at positions 13 and 16. -/
def timestamp_format (s : String) : Bool :=
  match s.data with
  | [y1, y2, y3, y4, p1, m1, m2, p2, d1, d2, p3, h1, h2, p4, n1, n2, p5, s1, s2] =>
    y1.isDigit && y2.isDigit && y3.isDigit && y4.isDigit && p1 == '-' &&
    m1.isDigit && m2.isDigit && p2 == '-' && d1.isDigit && d2.isDigit && p3 == ' ' &&
    h1.isDigit && h2.isDigit && p4 == ':' && n1.isDigit && n2.isDigit && p5 == ':' &&
    s1.isDigit && s2.isDigit
  | _ => false

/-- A zone without offset from UTC. -/
def zone_utc : Int → Int :=
  fun _ => 0

/-- The rules of a zone that leaves summer time (UTC+2) for standard time
(UTC+1) at 01:00:00 UTC on 2023-10-29, as Europe/Madrid does. -/
def zone_madrid_2023 : Int → Int :=
  fun t => if t < 1698541200 then 7200 else 3600

/-! # Theorems -/

/-- The seven paths through `mongo_init` when no argument is `NULL`: which
driver answers select the path, and the outcome on it. -/
theorem mongo_init_paths (drv : mongoc_driver) (c0 : mongo_context_t) (u d n : String) :
    (drv.mongoc_uri_new_with_error u = none ∧
      mongo_init drv (some c0) (some u) (some d) (some n) =
        ⟨0, some (failed_context u d n),
          [mongoc_call.mongoc_init, mongoc_call.uri_new_with_error u none]⟩) ∨
    (∃ uri_obj, drv.mongoc_uri_new_with_error u = some uri_obj ∧
      drv.mongoc_client_new_from_uri uri_obj = none ∧
      mongo_init drv (some c0) (some u) (some d) (some n) =
        ⟨0, some (failed_context u d n), calls_uri u uri_obj none⟩) ∨
    (∃ uri_obj client, drv.mongoc_uri_new_with_error u = some uri_obj ∧
      drv.mongoc_client_new_from_uri uri_obj = some client ∧
      drv.mongoc_client_command_simple client "admin" (BCON_NEW ping_fields) = false ∧
      mongo_init drv (some c0) (some u) (some d) (some n) =
        ⟨0, some (failed_context u d n),
          calls_uri u uri_obj (some client) ++ calls_ping client false ++
            [mongoc_call.client_destroy client]⟩) ∨
    (∃ uri_obj client, drv.mongoc_uri_new_with_error u = some uri_obj ∧
      drv.mongoc_client_new_from_uri uri_obj = some client ∧
      drv.mongoc_client_command_simple client "admin" (BCON_NEW ping_fields) = true ∧
      drv.mongoc_client_get_database client d = none ∧
      mongo_init drv (some c0) (some u) (some d) (some n) =
        ⟨0, some (failed_context u d n),
          calls_uri u uri_obj (some client) ++ calls_ping client true ++
            [mongoc_call.client_get_database client d none,
             mongoc_call.client_destroy client]⟩) ∨
    (∃ uri_obj client database, drv.mongoc_uri_new_with_error u = some uri_obj ∧
      drv.mongoc_client_new_from_uri uri_obj = some client ∧
      drv.mongoc_client_command_simple client "admin" (BCON_NEW ping_fields) = true ∧
      drv.mongoc_client_get_database client d = some database ∧
      drv.mongoc_database_get_collection database n = none ∧
      mongo_init drv (some c0) (some u) (some d) (some n) =
        ⟨0, some (failed_context u d n),
          calls_uri u uri_obj (some client) ++ calls_ping client true ++
            [mongoc_call.client_get_database client d (some database)] ++
            calls_collection database n none ++
            [mongoc_call.client_destroy client]⟩) ∨
    (∃ uri_obj client database collection, drv.mongoc_uri_new_with_error u = some uri_obj ∧
      drv.mongoc_client_new_from_uri uri_obj = some client ∧
      drv.mongoc_client_command_simple client "admin" (BCON_NEW ping_fields) = true ∧
      drv.mongoc_client_get_database client d = some database ∧
      drv.mongoc_database_get_collection database n = some collection ∧
      drv.mongoc_collection_insert_one collection (BCON_NEW probe_fields) = false ∧
      mongo_init drv (some c0) (some u) (some d) (some n) =
        ⟨0, some (failed_context u d n),
          calls_uri u uri_obj (some client) ++ calls_ping client true ++
            [mongoc_call.client_get_database client d (some database)] ++
            calls_collection database n (some collection) ++ calls_probe collection false ++
            [mongoc_call.bson_destroy (BCON_NEW probe_fields),
             mongoc_call.collection_destroy collection,
             mongoc_call.client_destroy client]⟩) ∨
    (∃ uri_obj client database collection, drv.mongoc_uri_new_with_error u = some uri_obj ∧
      drv.mongoc_client_new_from_uri uri_obj = some client ∧
      drv.mongoc_client_command_simple client "admin" (BCON_NEW ping_fields) = true ∧
      drv.mongoc_client_get_database client d = some database ∧
      drv.mongoc_database_get_collection database n = some collection ∧
      drv.mongoc_collection_insert_one collection (BCON_NEW probe_fields) = true ∧
      mongo_init drv (some c0) (some u) (some d) (some n) =
        ⟨1, some ⟨some client, some collection, some u, some d, some n⟩,
          calls_uri u uri_obj (some client) ++ calls_ping client true ++
            [mongoc_call.client_get_database client d (some database)] ++
            calls_collection database n (some collection) ++ calls_probe collection true ++
            [mongoc_call.bcon_new delete_fields (BCON_NEW delete_fields),
             mongoc_call.collection_delete_one collection (BCON_NEW delete_fields)
               (drv.mongoc_collection_delete_one collection (BCON_NEW delete_fields)),
             mongoc_call.bson_destroy (BCON_NEW delete_fields),
             mongoc_call.bson_destroy (BCON_NEW probe_fields)]⟩) := by
  cases h1 : drv.mongoc_uri_new_with_error u with
  | none => left; exact ⟨rfl, by simp only [mongo_init, h1]; rfl⟩
  | some uri_obj =>
    right
    cases h2 : drv.mongoc_client_new_from_uri uri_obj with
    | none => left; exact ⟨uri_obj, rfl, h2, by simp only [mongo_init, h1, h2]; rfl⟩
    | some client =>
      right
      cases h3 : drv.mongoc_client_command_simple client "admin" (BCON_NEW ping_fields) with
      | false =>
        left
        exact ⟨uri_obj, client, rfl, h2, h3, by simp only [mongo_init, h1, h2, h3]; rfl⟩
      | true =>
        right
        cases h4 : drv.mongoc_client_get_database client d with
        | none =>
          left
          exact ⟨uri_obj, client, rfl, h2, h3, h4, by
            simp only [mongo_init, h1, h2, h3, h4]; rfl⟩
        | some database =>
          right
          cases h5 : drv.mongoc_database_get_collection database n with
          | none =>
            left
            exact ⟨uri_obj, client, database, rfl, h2, h3, h4, h5, by
              simp only [mongo_init, h1, h2, h3, h4, h5]; rfl⟩
          | some collection =>
            right
            cases h6 : drv.mongoc_collection_insert_one collection (BCON_NEW probe_fields) with
            | false =>
              left
              exact ⟨uri_obj, client, database, collection, rfl, h2, h3, h4, h5, h6, by
                simp only [mongo_init, h1, h2, h3, h4, h5, h6]; rfl⟩
            | true =>
              right
              exact ⟨uri_obj, client, database, collection, rfl, h2, h3, h4, h5, h6, by
                simp only [mongo_init, h1, h2, h3, h4, h5, h6]; rfl⟩

/-- The returned value and the context of `mongo_init` on non-null arguments:
1 and the handles of the gates when all gates pass, otherwise 0 and a context
without handles. -/
theorem mongo_init_ret_ctx (drv : mongoc_driver) (c0 : mongo_context_t) (u d n : String) :
    (∃ uri_obj client database collection,
      gates_pass drv u d n uri_obj client database collection ∧
      (mongo_init drv (some c0) (some u) (some d) (some n)).ret = 1 ∧
      (mongo_init drv (some c0) (some u) (some d) (some n)).ctx =
        some ⟨some client, some collection, some u, some d, some n⟩) ∨
    ((¬ ∃ uri_obj client database collection,
        gates_pass drv u d n uri_obj client database collection) ∧
      (mongo_init drv (some c0) (some u) (some d) (some n)).ret = 0 ∧
      (mongo_init drv (some c0) (some u) (some d) (some n)).ctx =
        some (failed_context u d n)) := by
  rcases mongo_init_paths drv c0 u d n with ⟨h1, e⟩ | ⟨uo, h1, h2, e⟩ | ⟨uo, cl, h1, h2, h3, e⟩ |
      ⟨uo, cl, h1, h2, h3, h4, e⟩ | ⟨uo, cl, db, h1, h2, h3, h4, h5, e⟩ |
      ⟨uo, cl, db, col, h1, h2, h3, h4, h5, h6, e⟩ | ⟨uo, cl, db, col, h1, h2, h3, h4, h5, h6, e⟩
  on_goal 7 => exact Or.inl ⟨uo, cl, db, col, ⟨h1, h2, h3, h4, h5, h6⟩, by rw [e], by rw [e]⟩
  all_goals
    refine Or.inr ⟨?_, by rw [e], by rw [e]⟩
    rintro ⟨uo', cl', db', col', g1, g2, g3, g4, g5, g6⟩
    simp_all

/-- C1: `mongo_init` returns 1 exactly when `ctx` and the three strings are
non-null and the six gates pass in order (URI parsed, client constructed, ping
succeeded, database handle obtained, collection handle obtained, probe insert
succeeded); it returns 1 or 0; when the gates pass the context holds exactly
the client and collection handles the driver returned and the three
arguments; and replacing the driver's answer to the probe delete changes
neither the returned value nor the context. -/
theorem mongo_init_success_iff (drv : mongoc_driver) (ctx : Option mongo_context_t)
    (uri db_name collection_name : Option String) :
    ((mongo_init drv ctx uri db_name collection_name).ret = 1 ↔
      ∃ c0 u d n uri_obj client database collection,
        ctx = some c0 ∧ uri = some u ∧ db_name = some d ∧ collection_name = some n ∧
        drv.mongoc_uri_new_with_error u = some uri_obj ∧
        drv.mongoc_client_new_from_uri uri_obj = some client ∧
        drv.mongoc_client_command_simple client "admin" (BCON_NEW ping_fields) = true ∧
        drv.mongoc_client_get_database client d = some database ∧
        drv.mongoc_database_get_collection database n = some collection ∧
        drv.mongoc_collection_insert_one collection (BCON_NEW probe_fields) = true) ∧
    ((mongo_init drv ctx uri db_name collection_name).ret = 1 ∨
      (mongo_init drv ctx uri db_name collection_name).ret = 0) ∧
    (∀ c0 u d n uri_obj client database collection,
        ctx = some c0 → uri = some u → db_name = some d → collection_name = some n →
        drv.mongoc_uri_new_with_error u = some uri_obj →
        drv.mongoc_client_new_from_uri uri_obj = some client →
        drv.mongoc_client_command_simple client "admin" (BCON_NEW ping_fields) = true →
        drv.mongoc_client_get_database client d = some database →
        drv.mongoc_database_get_collection database n = some collection →
        drv.mongoc_collection_insert_one collection (BCON_NEW probe_fields) = true →
        (mongo_init drv ctx uri db_name collection_name).ctx =
          some ⟨some client, some collection, some u, some d, some n⟩) ∧
    (∀ del : mongoc_collection_t → Option bson_t → Bool,
        (mongo_init { drv with mongoc_collection_delete_one := del }
            ctx uri db_name collection_name).ret =
          (mongo_init drv ctx uri db_name collection_name).ret ∧
        (mongo_init { drv with mongoc_collection_delete_one := del }
            ctx uri db_name collection_name).ctx =
          (mongo_init drv ctx uri db_name collection_name).ctx) := by
  rcases ctx with _ | c0 <;> rcases uri with _ | u <;> rcases db_name with _ | d <;>
    rcases collection_name with _ | n <;>
    try (simp [mongo_init]; done)
  refine ⟨?_, ?_, ?_, ?_⟩
  · rcases mongo_init_ret_ctx drv c0 u d n with ⟨uo, cl, db, col, g, hr, -⟩ | ⟨g, hr, -⟩
    · simp only [hr, true_iff]
      exact ⟨c0, u, d, n, uo, cl, db, col, rfl, rfl, rfl, rfl, g⟩
    · simp only [hr, zero_ne_one, false_iff]
      rintro ⟨c0', u', d', n', uo, cl, db, col, e1, e2, e3, e4, g'⟩
      cases e2; cases e3; cases e4
      exact g ⟨uo, cl, db, col, g'⟩
  · rcases mongo_init_ret_ctx drv c0 u d n with ⟨uo, cl, db, col, -, hr, -⟩ | ⟨-, hr, -⟩
    · exact Or.inl hr
    · exact Or.inr hr
  · intro c0' u' d' n' uo' cl' db' col' e1 e2 e3 e4 g1 g2 g3 g4 g5 g6
    cases e1; cases e2; cases e3; cases e4
    rcases mongo_init_ret_ctx drv c0 u d n with ⟨uo, cl, db, col, g, -, hc⟩ | ⟨g, -, -⟩
    · obtain ⟨k1, k2, k3, k4, k5, k6⟩ := g
      simp_all
    · exact absurd ⟨uo', cl', db', col', g1, g2, g3, g4, g5, g6⟩ g
  · intro del
    rcases mongo_init_ret_ctx drv c0 u d n with ⟨uo, cl, db, col, g, hr, hc⟩ | ⟨g, hr, hc⟩ <;>
    rcases mongo_init_ret_ctx { drv with mongoc_collection_delete_one := del } c0 u d n with
      ⟨uo', cl', db', col', g', hr', hc'⟩ | ⟨g', hr', hc'⟩
    · rw [hr, hr', hc, hc']
      obtain ⟨k1, k2, k3, k4, k5, k6⟩ := g
      obtain ⟨j1, j2, j3, j4, j5, j6⟩ := g'
      simp only at j1 j2 j3 j4 j5 j6
      simp_all
    · exact absurd ⟨uo, cl, db, col, g⟩ g'
    · exact absurd ⟨uo', cl', db', col', g'⟩ g
    · rw [hr, hr', hc, hc']
      exact ⟨rfl, rfl⟩

/-- C2: when `mongo_init`, called with non-null arguments, returns 0, the
context holds neither a client nor a collection handle, and each kind of
handle (URI object, client, database, collection) is handed out at most once
during the call and is passed to its destroy function exactly as often as it
was handed out, so nothing is leaked and nothing is destroyed twice. In
particular, when the URI does not parse the call returns 0, no call that
creates a client is made and no client is handed out. -/
theorem mongo_init_failure_releases (drv : mongoc_driver) (c0 : mongo_context_t)
    (u d n : String) :
    ((mongo_init drv (some c0) (some u) (some d) (some n)).ret = 0 →
      (∃ c, (mongo_init drv (some c0) (some u) (some d) (some n)).ctx = some c ∧
        c.client = none ∧ c.collection = none) ∧
      (∀ h, (uris_destroyed (mongo_init drv (some c0) (some u) (some d) (some n)).calls).count h =
          (uris_handed_out (mongo_init drv (some c0) (some u) (some d) (some n)).calls).count h ∧
        (uris_handed_out (mongo_init drv (some c0) (some u) (some d) (some n)).calls).count h
          ≤ 1) ∧
      (∀ h, (clients_destroyed
            (mongo_init drv (some c0) (some u) (some d) (some n)).calls).count h =
          (clients_handed_out
            (mongo_init drv (some c0) (some u) (some d) (some n)).calls).count h ∧
        (clients_handed_out
            (mongo_init drv (some c0) (some u) (some d) (some n)).calls).count h ≤ 1) ∧
      (∀ h, (databases_destroyed
            (mongo_init drv (some c0) (some u) (some d) (some n)).calls).count h =
          (databases_handed_out
            (mongo_init drv (some c0) (some u) (some d) (some n)).calls).count h ∧
        (databases_handed_out
            (mongo_init drv (some c0) (some u) (some d) (some n)).calls).count h ≤ 1) ∧
      (∀ h, (collections_destroyed
            (mongo_init drv (some c0) (some u) (some d) (some n)).calls).count h =
          (collections_handed_out
            (mongo_init drv (some c0) (some u) (some d) (some n)).calls).count h ∧
        (collections_handed_out
            (mongo_init drv (some c0) (some u) (some d) (some n)).calls).count h ≤ 1)) ∧
    (drv.mongoc_uri_new_with_error u = none →
      (mongo_init drv (some c0) (some u) (some d) (some n)).ret = 0 ∧
      clients_handed_out (mongo_init drv (some c0) (some u) (some d) (some n)).calls = [] ∧
      ∀ uri_obj r, mongoc_call.client_new_from_uri uri_obj r ∉
        (mongo_init drv (some c0) (some u) (some d) (some n)).calls) := by
  rcases mongo_init_paths drv c0 u d n with ⟨h1, e⟩ | ⟨uo, h1, h2, e⟩ | ⟨uo, cl, h1, h2, h3, e⟩ |
      ⟨uo, cl, h1, h2, h3, h4, e⟩ | ⟨uo, cl, db, h1, h2, h3, h4, h5, e⟩ |
      ⟨uo, cl, db, col, h1, h2, h3, h4, h5, h6, e⟩ | ⟨uo, cl, db, col, h1, h2, h3, h4, h5, h6, e⟩
  on_goal 7 => rw [e]; exact ⟨fun hfail => by simp at hfail, fun hnone => by simp [h1] at hnone⟩
  all_goals
    rw [e]
    refine ⟨fun _ => ⟨⟨_, rfl, rfl, rfl⟩, ?_, ?_, ?_, ?_⟩, ?_⟩
    on_goal 5 => simp [h1, clients_handed_out]
    all_goals
      intro h
      simp only [uris_destroyed, uris_handed_out, clients_destroyed, clients_handed_out,
        databases_destroyed, databases_handed_out, collections_destroyed,
        collections_handed_out, calls_uri, calls_ping, calls_collection, calls_probe,
        List.cons_append, List.nil_append, List.append_assoc, List.filterMap_cons,
        List.filterMap_nil, List.count_cons, List.count_nil]
      first | (simp; done) | (split_ifs <;> simp)

/-- C2, at concrete inputs: a driver that rejects the probe insert makes
`mongo_init` return 0, leaves no handle in the context, and the client 2 and
the collection 4 it handed out are each destroyed once; a driver that cannot
parse the URI makes it return 0. -/
theorem mongo_init_failure_releases_witness :
    (mongo_init driver_read_only (some empty_context)
        (some "mongodb://localhost") (some "db") (some "addresses")).ret = 0 ∧
    (∃ c, (mongo_init driver_read_only (some empty_context)
        (some "mongodb://localhost") (some "db") (some "addresses")).ctx = some c ∧
      c.client = none ∧ c.collection = none) ∧
    (clients_destroyed (mongo_init driver_read_only (some empty_context)
        (some "mongodb://localhost") (some "db") (some "addresses")).calls).count 2 = 1 ∧
    (collections_destroyed (mongo_init driver_read_only (some empty_context)
        (some "mongodb://localhost") (some "db") (some "addresses")).calls).count 4 = 1 ∧
    (mongo_init driver_bad_uri (some empty_context)
        (some "not a uri") (some "db") (some "addresses")).ret = 0 :=
  ⟨by decide,
   ((mongo_init_failure_releases driver_read_only empty_context
      "mongodb://localhost" "db" "addresses").1 (by decide)).1,
   (((mongo_init_failure_releases driver_read_only empty_context
      "mongodb://localhost" "db" "addresses").1 (by decide)).2.2.1 2).1.trans (by decide),
   (((mongo_init_failure_releases driver_read_only empty_context
      "mongodb://localhost" "db" "addresses").1 (by decide)).2.2.2.2 4).1.trans (by decide),
   ((mongo_init_failure_releases driver_bad_uri empty_context
      "not a uri" "db" "addresses").2 rfl).1⟩

/-- C10: with non-null arguments the whole outcome of `mongo_init` (returned
value, resulting context, driver calls with their results) is the same for
any two prior contents of the context; the only client and collection handles
it passes to a destroy function are ones the driver handed out during the
call, so a handle held before the call is overwritten and never destroyed;
and when `ctx` or one of the three strings is `NULL` it returns 0, makes no
driver call and leaves the context as it was. -/
theorem mongo_init_ignores_prior_context (drv : mongoc_driver) (c0 c0' : mongo_context_t)
    (u d n : String) (ctx : Option mongo_context_t)
    (uri db_name collection_name : Option String) :
    mongo_init drv (some c0) (some u) (some d) (some n) =
      mongo_init drv (some c0') (some u) (some d) (some n) ∧
    (∀ h ∈ clients_destroyed (mongo_init drv (some c0) (some u) (some d) (some n)).calls,
      h ∈ clients_handed_out (mongo_init drv (some c0) (some u) (some d) (some n)).calls) ∧
    (∀ h ∈ collections_destroyed (mongo_init drv (some c0) (some u) (some d) (some n)).calls,
      h ∈ collections_handed_out (mongo_init drv (some c0) (some u) (some d) (some n)).calls) ∧
    (ctx = none ∨ uri = none ∨ db_name = none ∨ collection_name = none →
      mongo_init drv ctx uri db_name collection_name = ⟨0, ctx, []⟩) := by
  refine ⟨rfl, ?_, ?_, ?_⟩
  · rcases mongo_init_paths drv c0 u d n with ⟨h1, e⟩ | ⟨uo, h1, h2, e⟩ | ⟨uo, cl, h1, h2, h3, e⟩ |
      ⟨uo, cl, h1, h2, h3, h4, e⟩ | ⟨uo, cl, db, h1, h2, h3, h4, h5, e⟩ |
      ⟨uo, cl, db, col, h1, h2, h3, h4, h5, h6, e⟩ | ⟨uo, cl, db, col, h1, h2, h3, h4, h5, h6, e⟩ <;>
    rw [e] <;>
    simp [clients_destroyed, clients_handed_out, calls_uri, calls_ping, calls_collection,
      calls_probe]
  · rcases mongo_init_paths drv c0 u d n with ⟨h1, e⟩ | ⟨uo, h1, h2, e⟩ | ⟨uo, cl, h1, h2, h3, e⟩ |
      ⟨uo, cl, h1, h2, h3, h4, e⟩ | ⟨uo, cl, db, h1, h2, h3, h4, h5, e⟩ |
      ⟨uo, cl, db, col, h1, h2, h3, h4, h5, h6, e⟩ | ⟨uo, cl, db, col, h1, h2, h3, h4, h5, h6, e⟩ <;>
    rw [e] <;>
    simp [collections_destroyed, collections_handed_out, calls_uri, calls_ping,
      calls_collection, calls_probe]
  · intro hnull
    rcases ctx with _ | c <;> rcases uri with _ | u' <;> rcases db_name with _ | d' <;>
      rcases collection_name with _ | n' <;> first | rfl | simp at hnull

/-- C10, at a concrete input: a context that holds the client 7 and the
collection 8 is initialised again with a driver that hands out 2 and 4; the
new handles replace the old ones, which are passed to no destroy function, and
a call with a `NULL` URI changes nothing. -/
theorem mongo_init_ignores_prior_context_witness :
    (mongo_init (driver_ok 1 2 3 4) (some ⟨some 7, some 8, none, none, none⟩)
        (some "mongodb://localhost") (some "db") (some "addresses")).ctx =
      some ⟨some 2, some 4, some "mongodb://localhost", some "db", some "addresses"⟩ ∧
    clients_destroyed (mongo_init (driver_ok 1 2 3 4) (some ⟨some 7, some 8, none, none, none⟩)
        (some "mongodb://localhost") (some "db") (some "addresses")).calls = [] ∧
    collections_destroyed (mongo_init (driver_ok 1 2 3 4)
        (some ⟨some 7, some 8, none, none, none⟩)
        (some "mongodb://localhost") (some "db") (some "addresses")).calls = [] ∧
    mongo_init (driver_ok 1 2 3 4) (some ⟨some 7, some 8, none, none, none⟩)
        none (some "db") (some "addresses") =
      ⟨0, some ⟨some 7, some 8, none, none, none⟩, []⟩ :=
  ⟨by decide, by decide, by decide,
   (mongo_init_ignores_prior_context (driver_ok 1 2 3 4) empty_context empty_context
      "mongodb://localhost" "db" "addresses" (some ⟨some 7, some 8, none, none, none⟩)
      none (some "db") (some "addresses")).2.2.2 (Or.inr (Or.inl rfl))⟩

/-- C4: `mongo_save_address` called with a `NULL` context, or with a context
whose collection handle is `NULL`, returns 0, makes no driver call (so no
insert) and leaves the context as it was, whatever `address`, `private_key`
and `pattern` are. -/
theorem mongo_save_address_not_initialised (drv : mongoc_driver) (clk : libc_clock)
    (ctx : Option mongo_context_t) (address private_key pattern : Option String)
    (h : ∀ c, ctx = some c → c.collection = none) :
    (mongo_save_address drv clk ctx address private_key pattern).ret = 0 ∧
    insert_attempts (mongo_save_address drv clk ctx address private_key pattern).calls = [] ∧
    (mongo_save_address drv clk ctx address private_key pattern).calls = [] ∧
    (mongo_save_address drv clk ctx address private_key pattern).ctx = ctx := by
  rcases ctx with _ | c
  · simp [mongo_save_address, insert_attempts]
  · have hc := h c rfl
    simp [mongo_save_address, hc, insert_attempts]

/-- C4, at concrete inputs: a context that was never initialised, and the
context a failed `mongo_init` leaves, both make `mongo_save_address` return 0
without a driver call. -/
theorem mongo_save_address_not_initialised_witness :
    (mongo_save_address (driver_ok 1 2 3 4) clock_epoch (some empty_context)
        (some "1BoatSLRHtKNngkdXEeobR76b53LETtpyT") (some "key") (some "1Boat")).ret = 0 ∧
    (mongo_save_address (driver_ok 1 2 3 4) clock_epoch
        (mongo_init driver_read_only (some empty_context)
          (some "mongodb://localhost") (some "db") (some "addresses")).ctx
        (some "1BoatSLRHtKNngkdXEeobR76b53LETtpyT") none (some "1Boat")).calls = [] :=
  ⟨(mongo_save_address_not_initialised (driver_ok 1 2 3 4) clock_epoch (some empty_context)
      (some "1BoatSLRHtKNngkdXEeobR76b53LETtpyT") (some "key") (some "1Boat")
      (by intro c hc; cases hc; rfl)).1,
   (mongo_save_address_not_initialised (driver_ok 1 2 3 4) clock_epoch
      (mongo_init driver_read_only (some empty_context)
          (some "mongodb://localhost") (some "db") (some "addresses")).ctx
      (some "1BoatSLRHtKNngkdXEeobR76b53LETtpyT") none (some "1Boat")
      (by intro c hc; cases hc; rfl)).2.2.1⟩

/-- C5: on a context whose collection handle is non-null, with non-null
`address` and `pattern`, `mongo_save_address` makes exactly one insert
attempt, on that collection, with the document
`address, private_key, pattern, created_at` in this order and no other field,
where `private_key` is the argument or `""` when it is `NULL`; it returns 1
exactly when the driver accepts that insert, 0 otherwise; and it leaves the
context unchanged. -/
theorem mongo_save_address_inserts_once (drv : mongoc_driver) (clk : libc_clock)
    (c : mongo_context_t) (collection : mongoc_collection_t)
    (address pattern : String) (private_key : Option String)
    (hcol : c.collection = some collection) :
    insert_attempts
        (mongo_save_address drv clk (some c) (some address) private_key (some pattern)).calls =
      [(collection, some ⟨[("address", bson_value.utf8 address),
          ("private_key", bson_value.utf8 (private_key.getD "")),
          ("pattern", bson_value.utf8 pattern),
          ("created_at", bson_value.utf8 (created_at clk))]⟩)] ∧
    ((mongo_save_address drv clk (some c) (some address) private_key (some pattern)).ret = 1 ↔
      drv.mongoc_collection_insert_one collection
        (some ⟨[("address", bson_value.utf8 address),
          ("private_key", bson_value.utf8 (private_key.getD "")),
          ("pattern", bson_value.utf8 pattern),
          ("created_at", bson_value.utf8 (created_at clk))]⟩) = true) ∧
    ((mongo_save_address drv clk (some c) (some address) private_key (some pattern)).ret = 1 ∨
      (mongo_save_address drv clk (some c) (some address) private_key (some pattern)).ret = 0) ∧
    (mongo_save_address drv clk (some c) (some address) private_key (some pattern)).ctx =
      some c := by
  have hk : (match private_key with | some k => k | none => "") = private_key.getD "" := by
    cases private_key <;> rfl
  simp only [mongo_save_address, hcol, BCON_NEW, address_fields, hk]
  cases hins : drv.mongoc_collection_insert_one collection
      (some ⟨[("address", bson_value.utf8 address),
          ("private_key", bson_value.utf8 (private_key.getD "")),
          ("pattern", bson_value.utf8 pattern),
          ("created_at", bson_value.utf8 (created_at clk))]⟩) <;>
    simp [insert_attempts]

/-- C5, at a concrete input: saving with a `NULL` private key on a live
context makes one insert on collection 4 with an empty `private_key` field
and returns 1. -/
theorem mongo_save_address_inserts_once_witness :
    live_context.collection = some 4 ∧
    insert_attempts
        (mongo_save_address (driver_ok 1 2 3 4) clock_epoch (some live_context)
          (some "0xABC") none (some "p2pkh")).calls =
      [(4, some ⟨[("address", bson_value.utf8 "0xABC"),
          ("private_key", bson_value.utf8 ""),
          ("pattern", bson_value.utf8 "p2pkh"),
          ("created_at", bson_value.utf8 (created_at clock_epoch))]⟩)] ∧
    (mongo_save_address (driver_ok 1 2 3 4) clock_epoch (some live_context)
          (some "0xABC") none (some "p2pkh")).ret = 1 :=
  ⟨rfl,
   (mongo_save_address_inserts_once (driver_ok 1 2 3 4) clock_epoch live_context 4
      "0xABC" "p2pkh" none rfl).1,
   (mongo_save_address_inserts_once (driver_ok 1 2 3 4) clock_epoch live_context 4
      "0xABC" "p2pkh" none rfl).2.1.2 rfl⟩

/-- C6 fails as stated: with an empty `address` and an empty `pattern` (both
non-null) on a live context, `mongo_save_address` does attempt an insert, the
inserted document has an empty `address` and an empty `pattern`, and the call
returns 1. -/
theorem mongo_save_address_accepts_empty_strings :
    insert_attempts
        (mongo_save_address (driver_ok 1 2 3 4) clock_epoch (some live_context)
          (some "") (some "key") (some "")).calls =
      [(4, some ⟨[("address", bson_value.utf8 ""),
          ("private_key", bson_value.utf8 "key"),
          ("pattern", bson_value.utf8 ""),
          ("created_at", bson_value.utf8 "1970-01-01 00:00:00")]⟩)] ∧
    (mongo_save_address (driver_ok 1 2 3 4) clock_epoch (some live_context)
          (some "") (some "key") (some "")).ret = 1 := by
  decide

/-- C6, amended: whenever `mongo_save_address` attempts an insert, `address`
and `pattern` were non-null and the `address` and `pattern` fields of the
inserted document are present and equal to those arguments (which may be
empty strings); a call with a `NULL` address or a `NULL` pattern attempts no
insert and returns 0. -/
theorem mongo_save_address_requires_non_null (drv : mongoc_driver) (clk : libc_clock)
    (ctx : Option mongo_context_t) (address private_key pattern : Option String) :
    (∀ col doc,
      (col, doc) ∈ insert_attempts
        (mongo_save_address drv clk ctx address private_key pattern).calls →
      ∃ a p k t, address = some a ∧ pattern = some p ∧
        doc = some ⟨[("address", bson_value.utf8 a), ("private_key", bson_value.utf8 k),
          ("pattern", bson_value.utf8 p), ("created_at", bson_value.utf8 t)]⟩) ∧
    (address = none ∨ pattern = none →
      (mongo_save_address drv clk ctx address private_key pattern).ret = 0 ∧
      insert_attempts (mongo_save_address drv clk ctx address private_key pattern).calls = [])
    := by
  rcases ctx with _ | c
  · simp [mongo_save_address, insert_attempts]
  · rcases hcol : c.collection with _ | collection
    · simp [mongo_save_address, hcol, insert_attempts]
    · rcases address with _ | a <;> rcases pattern with _ | p <;>
        simp only [mongo_save_address, hcol, BCON_NEW, address_fields] <;>
        try (simp [insert_attempts]; done)
      split_ifs <;> simp [insert_attempts]

/-- C6 amended, at a concrete input: the one insert of a save with address
`"0xABC"` and pattern `"p2pkh"` carries these two strings, and a save with a
`NULL` pattern returns 0. -/
theorem mongo_save_address_requires_non_null_witness :
    (∃ a p k t, some "0xABC" = some a ∧ some "p2pkh" = some p ∧
      some (bson_t.mk [("address", bson_value.utf8 "0xABC"),
          ("private_key", bson_value.utf8 "key1"),
          ("pattern", bson_value.utf8 "p2pkh"),
          ("created_at", bson_value.utf8 "1970-01-01 00:00:00")]) =
        some ⟨[("address", bson_value.utf8 a), ("private_key", bson_value.utf8 k),
          ("pattern", bson_value.utf8 p), ("created_at", bson_value.utf8 t)]⟩) ∧
    (mongo_save_address (driver_ok 1 2 3 4) clock_epoch (some live_context)
          (some "0xABC") (some "key1") none).ret = 0 :=
  ⟨(mongo_save_address_requires_non_null (driver_ok 1 2 3 4) clock_epoch (some live_context)
      (some "0xABC") (some "key1") (some "p2pkh")).1 4 _ (by decide),
   ((mongo_save_address_requires_non_null (driver_ok 1 2 3 4) clock_epoch (some live_context)
      (some "0xABC") (some "key1") none).2 (Or.inr rfl)).1⟩

/-- C7: `mongo_cleanup` on a `NULL` pointer does nothing; on a context it
destroys the collection handle if present, then the client handle if present,
each once, then calls `mongoc_cleanup`, and leaves the context with both
handles `NULL` and the three strings unchanged; a second call leaves the
context equal to what the first call left and destroys no collection or client
handle. -/
theorem mongo_cleanup_idempotent (ctx : Option mongo_context_t) :
    (mongo_cleanup (mongo_cleanup ctx).ctx).ctx = (mongo_cleanup ctx).ctx ∧
    collections_destroyed (mongo_cleanup (mongo_cleanup ctx).ctx).calls = [] ∧
    clients_destroyed (mongo_cleanup (mongo_cleanup ctx).ctx).calls = [] ∧
    (ctx = none → mongo_cleanup ctx = ⟨0, none, []⟩) ∧
    (∀ c, ctx = some c →
      (mongo_cleanup ctx).ctx = some ⟨none, none, c.uri, c.db_name, c.collection_name⟩ ∧
      (mongo_cleanup ctx).calls =
        c.collection.toList.map mongoc_call.collection_destroy ++
        c.client.toList.map mongoc_call.client_destroy ++ [mongoc_call.mongoc_cleanup] ∧
      collections_destroyed (mongo_cleanup ctx).calls = c.collection.toList ∧
      clients_destroyed (mongo_cleanup ctx).calls = c.client.toList) := by
  rcases ctx with _ | ⟨client, collection, u, d, n⟩
  · simp [mongo_cleanup, collections_destroyed, clients_destroyed]
  · rcases client with _ | cl <;> rcases collection with _ | col <;>
      simp [mongo_cleanup, collections_destroyed, clients_destroyed]

/-- C7, at concrete inputs: cleaning up a live context destroys collection 4,
then client 2, then tears the driver down; a context that holds only a client
loses it; cleaning up twice equals cleaning up once. -/
theorem mongo_cleanup_idempotent_witness :
    (mongo_cleanup (some live_context)).calls =
      [mongoc_call.collection_destroy 4, mongoc_call.client_destroy 2,
       mongoc_call.mongoc_cleanup] ∧
    (mongo_cleanup (some ⟨some 7, none, none, none, none⟩)).ctx = some empty_context ∧
    (mongo_cleanup (mongo_cleanup (some live_context)).ctx).ctx =
      (mongo_cleanup (some live_context)).ctx :=
  ⟨((mongo_cleanup_idempotent (some live_context)).2.2.2.2 live_context rfl).2.1,
   ((mongo_cleanup_idempotent (some ⟨some 7, none, none, none, none⟩)).2.2.2.2 _ rfl).1,
   (mongo_cleanup_idempotent (some live_context)).1⟩

/-- The context `mongo_init` leaves has both handles or neither, when the
context it was given does. -/
theorem mongo_init_keeps_pairing (drv : mongoc_driver) (c : mongo_context_t)
    (uri db_name collection_name : Option String)
    (h : c.collection ≠ none ↔ c.client ≠ none) :
    ∃ c', (mongo_init drv (some c) uri db_name collection_name).ctx = some c' ∧
      (c'.collection ≠ none ↔ c'.client ≠ none) := by
  rcases uri with _ | u <;> rcases db_name with _ | d <;> rcases collection_name with _ | n <;>
    try exact ⟨c, rfl, h⟩
  rcases mongo_init_ret_ctx drv c u d n with ⟨uo, cl, db, col, -, -, hc⟩ | ⟨-, -, hc⟩
  · exact ⟨_, hc, by simp⟩
  · exact ⟨_, hc, by simp [failed_context]⟩

/-- The function `mongo_save_address` never writes to the context. -/
theorem mongo_save_address_ctx (drv : mongoc_driver) (clk : libc_clock)
    (ctx : Option mongo_context_t) (address private_key pattern : Option String) :
    (mongo_save_address drv clk ctx address private_key pattern).ctx = ctx := by
  rcases ctx with _ | c
  · rfl
  · rcases hcol : c.collection with _ | collection
    · simp [mongo_save_address, hcol]
    · rcases address with _ | a <;> rcases pattern with _ | p <;>
        simp only [mongo_save_address, hcol, BCON_NEW]
      all_goals first | rfl | (split_ifs <;> rfl)

/-- One interface call keeps the pairing of the two handles of a context. -/
theorem step_keeps_pairing (s : process) (a : api_call) (i : Nat)
    (h : (s.heap i).collection ≠ none ↔ (s.heap i).client ≠ none) :
    ((step s a).heap i).collection ≠ none ↔ ((step s a).heap i).client ≠ none := by
  have key : ∀ (p : Option Nat) (o : Option mongo_context_t),
      (p = some i → ∃ c', o = some c' ∧ (c'.collection ≠ none ↔ c'.client ≠ none)) →
      ((store s.heap p o i).collection ≠ none ↔ (store s.heap p o i).client ≠ none) := by
    intro p o ho
    rcases p with _ | j
    · simpa [store] using h
    · by_cases hij : i = j
      · subst hij
        obtain ⟨c', rfl, hc'⟩ := ho rfl
        simpa [store] using hc'
      · rcases o with _ | c'
        · simpa [store] using h
        · simpa [store, Function.update, hij] using h
  cases a with
  | init drv p uri db_name collection_name =>
    refine key p _ ?_
    rintro rfl
    exact mongo_init_keeps_pairing drv _ uri db_name collection_name h
  | save drv clk p address private_key pattern =>
    refine key p _ ?_
    rintro rfl
    exact ⟨s.heap i, mongo_save_address_ctx drv clk _ address private_key pattern, h⟩
  | cleanup p =>
    refine key p _ ?_
    rintro rfl
    exact ⟨_, rfl, by simp⟩

/-- C3: take a context whose client and collection handles are both empty;
after any sequence of `mongo_init`, `mongo_save_address` and `mongo_cleanup`
calls, on it or on other contexts, with any arguments (null or not) and any
answers of the driver, its collection handle is non-null if and only if its
client handle is non-null. -/
theorem handles_paired_after_any_calls (s : process) (i : Nat) (l : List api_call)
    (hclient : (s.heap i).client = none) (hcollection : (s.heap i).collection = none) :
    ((run s l).heap i).collection ≠ none ↔ ((run s l).heap i).client ≠ none := by
  have gen : ∀ (l : List api_call) (s : process),
      ((s.heap i).collection ≠ none ↔ (s.heap i).client ≠ none) →
      (((run s l).heap i).collection ≠ none ↔ ((run s l).heap i).client ≠ none) := by
    intro l
    induction l with
    | nil => intro s hs; exact hs
    | cons a l ih =>
      intro s hs
      exact ih (step s a) (step_keeps_pairing s a i hs)
  exact gen l s (by simp [hclient, hcollection])

/-- C3, at a concrete input: a fresh context is initialised with a driver that
rejects the probe insert, then initialised successfully, used for a save and
cleaned up twice; at the end it holds neither handle, and after the second
call it held both. -/
theorem handles_paired_after_any_calls_witness :
    (((run fresh_process
        [api_call.init driver_read_only (some 0) (some "mongodb://h") (some "db") (some "c"),
         api_call.init (driver_ok 1 2 3 4) (some 0) (some "mongodb://h") (some "db") (some "c"),
         api_call.save (driver_ok 1 2 3 4) clock_epoch (some 0) (some "a") none (some "p"),
         api_call.cleanup (some 0), api_call.cleanup (some 0)]).heap 0).collection ≠ none ↔
      ((run fresh_process
        [api_call.init driver_read_only (some 0) (some "mongodb://h") (some "db") (some "c"),
         api_call.init (driver_ok 1 2 3 4) (some 0) (some "mongodb://h") (some "db") (some "c"),
         api_call.save (driver_ok 1 2 3 4) clock_epoch (some 0) (some "a") none (some "p"),
         api_call.cleanup (some 0), api_call.cleanup (some 0)]).heap 0).client ≠ none) ∧
    ((run fresh_process
        [api_call.init driver_read_only (some 0) (some "mongodb://h") (some "db") (some "c"),
         api_call.init (driver_ok 1 2 3 4) (some 0) (some "mongodb://h") (some "db")
           (some "c")]).heap 0).client = some 2 ∧
    ((run fresh_process
        [api_call.init driver_read_only (some 0) (some "mongodb://h") (some "db") (some "c"),
         api_call.init (driver_ok 1 2 3 4) (some 0) (some "mongodb://h") (some "db")
           (some "c")]).heap 0).collection = some 4 :=
  ⟨handles_paired_after_any_calls fresh_process 0 _ rfl rfl, by decide, by decide⟩

/-- The number of `mongoc_init ()` and of `mongoc_cleanup ()` calls one
interface call makes. -/
theorem outcome_global_calls (heap : Nat → mongo_context_t) (a : api_call) :
    (a.outcome heap).calls.count mongoc_call.mongoc_init =
      (if a.reaches_mongoc_init then 1 else 0) ∧
    (a.outcome heap).calls.count mongoc_call.mongoc_cleanup =
      (if a.reaches_mongoc_cleanup then 1 else 0) := by
  cases a with
  | init drv p uri db_name collection_name =>
    rcases p with _ | j <;> rcases uri with _ | u <;> rcases db_name with _ | d <;>
      rcases collection_name with _ | n <;>
      try (simp [api_call.outcome, api_call.reaches_mongoc_init,
        api_call.reaches_mongoc_cleanup, deref, mongo_init]; done)
    simp only [api_call.outcome, api_call.reaches_mongoc_init,
      api_call.reaches_mongoc_cleanup, deref]
    rcases mongo_init_paths drv (heap j) u d n with ⟨h1, e⟩ | ⟨uo, h1, h2, e⟩ |
      ⟨uo, cl, h1, h2, h3, e⟩ | ⟨uo, cl, h1, h2, h3, h4, e⟩ |
      ⟨uo, cl, db, h1, h2, h3, h4, h5, e⟩ | ⟨uo, cl, db, col, h1, h2, h3, h4, h5, h6, e⟩ |
      ⟨uo, cl, db, col, h1, h2, h3, h4, h5, h6, e⟩ <;>
    rw [e] <;> simp [calls_uri, calls_ping, calls_collection, calls_probe]
  | save drv clk p address private_key pattern =>
    simp only [api_call.outcome, api_call.reaches_mongoc_init,
      api_call.reaches_mongoc_cleanup]
    rcases hp : deref heap p with _ | c
    · simp [mongo_save_address]
    · rcases hcol : c.collection with _ | collection
      · simp [mongo_save_address, hcol]
      · rcases address with _ | a <;> rcases pattern with _ | pt <;>
          simp only [mongo_save_address, hcol, BCON_NEW] <;> try (simp; done)
        split_ifs <;> first | contradiction | simp
  | cleanup p =>
    rcases p with _ | j
    · simp [api_call.outcome, api_call.reaches_mongoc_init,
        api_call.reaches_mongoc_cleanup, deref, mongo_cleanup]
    · simp only [api_call.outcome, api_call.reaches_mongoc_init,
        api_call.reaches_mongoc_cleanup, deref, mongo_cleanup]
      rcases (heap j).collection with _ | col <;> rcases (heap j).client with _ | cl <;> simp

/-- C8 fails as stated: two contexts are initialised one after the other and
the first is then cleaned up twice. The trace holds two `mongoc_init` and two
`mongoc_cleanup` calls, and the first `mongoc_cleanup` is performed while the
second context still holds its live client 12 and collection 14. -/
theorem global_init_repeated :
    (run fresh_process
      [api_call.init (driver_ok 1 2 3 4) (some 0) (some "mongodb://h") (some "db") (some "a"),
       api_call.init (driver_ok 11 12 13 14) (some 1) (some "mongodb://h") (some "db")
         (some "b"),
       api_call.cleanup (some 0),
       api_call.cleanup (some 0)]).calls.count mongoc_call.mongoc_init = 2 ∧
    (run fresh_process
      [api_call.init (driver_ok 1 2 3 4) (some 0) (some "mongodb://h") (some "db") (some "a"),
       api_call.init (driver_ok 11 12 13 14) (some 1) (some "mongodb://h") (some "db")
         (some "b"),
       api_call.cleanup (some 0),
       api_call.cleanup (some 0)]).calls.count mongoc_call.mongoc_cleanup = 2 ∧
    (run fresh_process
      [api_call.init (driver_ok 1 2 3 4) (some 0) (some "mongodb://h") (some "db") (some "a"),
       api_call.init (driver_ok 11 12 13 14) (some 1) (some "mongodb://h") (some "db")
         (some "b"),
       api_call.cleanup (some 0)]).calls.getLast? = some mongoc_call.mongoc_cleanup ∧
    ((run fresh_process
      [api_call.init (driver_ok 1 2 3 4) (some 0) (some "mongodb://h") (some "db") (some "a"),
       api_call.init (driver_ok 11 12 13 14) (some 1) (some "mongodb://h") (some "db")
         (some "b"),
       api_call.cleanup (some 0)]).heap 1).client = some 12 ∧
    ((run fresh_process
      [api_call.init (driver_ok 1 2 3 4) (some 0) (some "mongodb://h") (some "db") (some "a"),
       api_call.init (driver_ok 11 12 13 14) (some 1) (some "mongodb://h") (some "db")
         (some "b"),
       api_call.cleanup (some 0)]).heap 1).collection = some 14 := by
  decide

/-- C8, amended: the process-wide calls are made per interface call, not per
process. In the trace of any sequence of interface calls, on any contexts,
`mongoc_init` occurs once for each `mongo_init` call whose four pointer
arguments are non-null and `mongoc_cleanup` occurs once for each
`mongo_cleanup` call whose context pointer is non-null, and no other call
makes either (so the trace holds exactly one initialisation and one teardown
exactly when the sequence holds one such `mongo_init` and one such
`mongo_cleanup`); within such a `mongo_init` the initialisation is the first
driver call, before any handle of that context is created, and within such a
`mongo_cleanup` the teardown is the last driver call, after the handles of
that context are released. -/
theorem global_init_per_call (l : List api_call) :
    (run fresh_process l).calls.count mongoc_call.mongoc_init =
      l.countP api_call.reaches_mongoc_init ∧
    (run fresh_process l).calls.count mongoc_call.mongoc_cleanup =
      l.countP api_call.reaches_mongoc_cleanup ∧
    (∀ (heap : Nat → mongo_context_t) (a : api_call), a.reaches_mongoc_init = true →
      (a.outcome heap).calls.head? = some mongoc_call.mongoc_init) ∧
    (∀ (heap : Nat → mongo_context_t) (a : api_call), a.reaches_mongoc_cleanup = true →
      (a.outcome heap).calls.getLast? = some mongoc_call.mongoc_cleanup) := by
  have gen : ∀ (l : List api_call) (s : process),
      (run s l).calls.count mongoc_call.mongoc_init =
        s.calls.count mongoc_call.mongoc_init + l.countP api_call.reaches_mongoc_init ∧
      (run s l).calls.count mongoc_call.mongoc_cleanup =
        s.calls.count mongoc_call.mongoc_cleanup +
          l.countP api_call.reaches_mongoc_cleanup := by
    intro l
    induction l with
    | nil => intro s; simp [run]
    | cons a l ih =>
      intro s
      have h1 := (outcome_global_calls s.heap a).1
      have h2 := (outcome_global_calls s.heap a).2
      have ih1 := (ih (step s a)).1
      have ih2 := (ih (step s a)).2
      simp only [run, List.foldl_cons] at ih1 ih2 ⊢
      rw [ih1, ih2]
      simp only [step, List.count_append, h1, h2, List.countP_cons]
      constructor <;> split_ifs <;> omega
  refine ⟨by simpa [fresh_process] using (gen l fresh_process).1,
    by simpa [fresh_process] using (gen l fresh_process).2, ?_, ?_⟩
  · intro heap a ha
    cases a with
    | init drv p uri db_name collection_name =>
      rcases p with _ | j <;> rcases uri with _ | u <;> rcases db_name with _ | d <;>
        rcases collection_name with _ | n <;>
        try (simp [api_call.reaches_mongoc_init] at ha; done)
      simp only [api_call.outcome, deref]
      rcases mongo_init_paths drv (heap j) u d n with ⟨h1, e⟩ | ⟨uo, h1, h2, e⟩ |
        ⟨uo, cl, h1, h2, h3, e⟩ | ⟨uo, cl, h1, h2, h3, h4, e⟩ |
        ⟨uo, cl, db, h1, h2, h3, h4, h5, e⟩ | ⟨uo, cl, db, col, h1, h2, h3, h4, h5, h6, e⟩ |
        ⟨uo, cl, db, col, h1, h2, h3, h4, h5, h6, e⟩ <;>
      rw [e] <;> simp [calls_uri]
    | save drv clk p address private_key pattern =>
      simp [api_call.reaches_mongoc_init] at ha
    | cleanup p => simp [api_call.reaches_mongoc_init] at ha
  · intro heap a ha
    cases a with
    | init drv p uri db_name collection_name =>
      simp [api_call.reaches_mongoc_cleanup] at ha
    | save drv clk p address private_key pattern =>
      simp [api_call.reaches_mongoc_cleanup] at ha
    | cleanup p =>
      rcases p with _ | j
      · simp [api_call.reaches_mongoc_cleanup] at ha
      · simp only [api_call.outcome, deref, mongo_cleanup]
        rcases (heap j).collection with _ | col <;> rcases (heap j).client with _ | cl <;> simp

/-- C8 amended, at a concrete input: one `mongo_init`, one save and one
`mongo_cleanup` on one context give a trace with one `mongoc_init` and one
`mongoc_cleanup`, and the cleanup of a live context ends with the teardown. -/
theorem global_init_per_call_witness :
    (run fresh_process
      [api_call.init (driver_ok 1 2 3 4) (some 0) (some "mongodb://h") (some "db") (some "a"),
       api_call.save (driver_ok 1 2 3 4) clock_epoch (some 0) (some "x") none (some "p"),
       api_call.cleanup (some 0)]).calls.count mongoc_call.mongoc_init = 1 ∧
    (run fresh_process
      [api_call.init (driver_ok 1 2 3 4) (some 0) (some "mongodb://h") (some "db") (some "a"),
       api_call.save (driver_ok 1 2 3 4) clock_epoch (some 0) (some "x") none (some "p"),
       api_call.cleanup (some 0)]).calls.count mongoc_call.mongoc_cleanup = 1 ∧
    ((api_call.cleanup (some 0)).outcome (fun _ => live_context)).calls.getLast? =
      some mongoc_call.mongoc_cleanup :=
  ⟨(global_init_per_call _).1, (global_init_per_call _).2.1,
   (global_init_per_call []).2.2.2 (fun _ => live_context) (api_call.cleanup (some 0)) rfl⟩

/-- C1, at a concrete input: with a driver whose every call succeeds,
`mongo_init` returns 1 and the context holds the handles 2 and 4 it handed
out. -/
theorem mongo_init_success_iff_witness :
    (mongo_init (driver_ok 1 2 3 4) (some empty_context)
        (some "mongodb://localhost") (some "db") (some "addresses")).ret = 1 ∧
    (mongo_init (driver_ok 1 2 3 4) (some empty_context)
        (some "mongodb://localhost") (some "db") (some "addresses")).ctx =
      some ⟨some 2, some 4, some "mongodb://localhost", some "db", some "addresses"⟩ :=
  ⟨(mongo_init_success_iff (driver_ok 1 2 3 4) (some empty_context)
      (some "mongodb://localhost") (some "db") (some "addresses")).1.2
      ⟨empty_context, _, _, _, 1, 2, 3, 4, rfl, rfl, rfl, rfl, rfl, rfl, rfl, rfl, rfl, rfl⟩,
   (mongo_init_success_iff (driver_ok 1 2 3 4) (some empty_context)
      (some "mongodb://localhost") (some "db") (some "addresses")).2.2.1
      empty_context _ _ _ 1 2 3 4 rfl rfl rfl rfl rfl rfl rfl rfl rfl rfl⟩

/-! ## The calendar -/

/-- Quotient and remainder by a positive number order numbers
lexicographically. -/
theorem divmod_step (n a1 a2 : Int) (hn : 0 < n) (h : a1 < a2) :
    a1 / n < a2 / n ∨ (a1 / n = a2 / n ∧ a1 % n < a2 % n) := by
  have h1 := Int.emod_add_ediv a1 n
  have h2 := Int.emod_add_ediv a2 n
  have h3 := Int.emod_nonneg a1 hn.ne'
  have h4 := Int.emod_lt_of_pos a2 hn
  rcases lt_trichotomy (a1 / n) (a2 / n) with hlt | heq | hgt
  · exact Or.inl hlt
  · right
    refine ⟨heq, ?_⟩
    rw [heq] at h1
    linarith
  · exfalso
    have : a2 / n + 1 ≤ a1 / n := hgt
    nlinarith

/-- The century of a day of the 400-year cycle and the day within it. -/
theorem century_step (a1 a2 : Int) (h0 : 0 ≤ a1) (h1 : a2 ≤ 146096) (h : a1 < a2) :
    min (a1 / 36524) 3 < min (a2 / 36524) 3 ∨
    (min (a1 / 36524) 3 = min (a2 / 36524) 3 ∧
      a1 - 36524 * min (a1 / 36524) 3 < a2 - 36524 * min (a2 / 36524) 3) := by
  omega

/-- The year of a day of a four-year group and the day within it. -/
theorem year_step (a1 a2 : Int) (h1 : a2 ≤ 1460) (h : a1 < a2) :
    min (a1 / 365) 3 < min (a2 / 365) 3 ∨
    (min (a1 / 365) 3 = min (a2 / 365) 3 ∧
      a1 - 365 * min (a1 / 365) 3 < a2 - 365 * min (a2 / 365) 3) := by
  omega

/-- The day of the March-based year lies in 0..365. -/
theorem march_year_range (z : Int) : 0 ≤ (march_year z).2 ∧ (march_year z).2 ≤ 365 := by
  simp only [march_year]
  have a1 := Int.emod_nonneg z (show (146097 : Int) ≠ 0 by norm_num)
  have a2 := Int.emod_lt_of_pos z (show (0 : Int) < 146097 by norm_num)
  generalize z % 146097 = doe at *
  have c1 : 0 ≤ doe - 36524 * min (doe / 36524) 3 ∧
      doe - 36524 * min (doe / 36524) 3 ≤ 36524 := by omega
  generalize doe - 36524 * min (doe / 36524) 3 = doc at *
  omega

/-- Later days have a later March-based year, or the same year and a later
day in it. -/
theorem march_year_mono (z1 z2 : Int) (h : z1 < z2) :
    (march_year z1).1 < (march_year z2).1 ∨
    ((march_year z1).1 = (march_year z2).1 ∧ (march_year z1).2 < (march_year z2).2) := by
  simp only [march_year]
  have hE := divmod_step 146097 z1 z2 (by norm_num) h
  have a1 := Int.emod_nonneg z1 (show (146097 : Int) ≠ 0 by norm_num)
  have a2 := Int.emod_lt_of_pos z1 (show (0 : Int) < 146097 by norm_num)
  have b1 := Int.emod_nonneg z2 (show (146097 : Int) ≠ 0 by norm_num)
  have b2 := Int.emod_lt_of_pos z2 (show (0 : Int) < 146097 by norm_num)
  generalize z1 / 146097 = e1 at *
  generalize z2 / 146097 = e2 at *
  generalize z1 % 146097 = doe1 at *
  generalize z2 % 146097 = doe2 at *
  have hC : doe1 < doe2 → _ := century_step doe1 doe2 a1 (by omega)
  have rc1 : 0 ≤ min (doe1 / 36524) 3 ∧ min (doe1 / 36524) 3 ≤ 3 ∧
      0 ≤ doe1 - 36524 * min (doe1 / 36524) 3 ∧
      doe1 - 36524 * min (doe1 / 36524) 3 ≤ 36524 := by omega
  have rc2 : 0 ≤ min (doe2 / 36524) 3 ∧ min (doe2 / 36524) 3 ≤ 3 ∧
      0 ≤ doe2 - 36524 * min (doe2 / 36524) 3 ∧
      doe2 - 36524 * min (doe2 / 36524) 3 ≤ 36524 := by omega
  generalize min (doe1 / 36524) 3 = c1 at *
  generalize min (doe2 / 36524) 3 = c2 at *
  generalize doe1 - 36524 * c1 = doc1 at *
  generalize doe2 - 36524 * c2 = doc2 at *
  have hQ : doc1 < doc2 → _ := divmod_step 1461 doc1 doc2 (by norm_num)
  have rq1 : 0 ≤ doc1 / 1461 ∧ doc1 / 1461 ≤ 24 ∧ 0 ≤ doc1 % 1461 ∧ doc1 % 1461 ≤ 1460 := by
    omega
  have rq2 : 0 ≤ doc2 / 1461 ∧ doc2 / 1461 ≤ 24 ∧ 0 ≤ doc2 % 1461 ∧ doc2 % 1461 ≤ 1460 := by
    omega
  generalize doc1 / 1461 = q1 at *
  generalize doc2 / 1461 = q2 at *
  generalize doc1 % 1461 = doq1 at *
  generalize doc2 % 1461 = doq2 at *
  have hY : doq1 < doq2 → _ := year_step doq1 doq2 (by omega)
  have ry1 : 0 ≤ min (doq1 / 365) 3 ∧ min (doq1 / 365) 3 ≤ 3 := by omega
  have ry2 : 0 ≤ min (doq2 / 365) 3 ∧ min (doq2 / 365) 3 ≤ 3 := by omega
  generalize min (doq1 / 365) 3 = yq1 at *
  generalize min (doq2 / 365) 3 = yq2 at *
  omega

/-- The month counted from March and the day of the month order the days of a
March-based year lexicographically. -/
theorem month_step (a1 a2 : Int) (h : a1 < a2) :
    (5 * a1 + 2) / 153 < (5 * a2 + 2) / 153 ∨
    ((5 * a1 + 2) / 153 = (5 * a2 + 2) / 153 ∧
      a1 - (153 * ((5 * a1 + 2) / 153) + 2) / 5 + 1 <
        a2 - (153 * ((5 * a2 + 2) / 153) + 2) / 5 + 1) := by
  omega

/-- The month of a calendar date lies in 1..12 and the day in 1..31. -/
theorem civil_from_days_range (z : Int) :
    1 ≤ (civil_from_days z).2.1 ∧ (civil_from_days z).2.1 ≤ 12 ∧
    1 ≤ (civil_from_days z).2.2 ∧ (civil_from_days z).2.2 ≤ 31 := by
  have r := march_year_range z
  simp only [civil_from_days]
  generalize (march_year z).2 = doy at *
  have hm : 0 ≤ (5 * doy + 2) / 153 ∧ (5 * doy + 2) / 153 ≤ 11 := by omega
  refine ⟨?_, ?_, by omega, by omega⟩
  · split_ifs <;> omega
  · split_ifs <;> omega

/-- Later days have later calendar dates: the year, month and day increase
lexicographically. -/
theorem civil_from_days_mono (z1 z2 : Int) (h : z1 < z2) :
    (civil_from_days z1).1 < (civil_from_days z2).1 ∨
    ((civil_from_days z1).1 = (civil_from_days z2).1 ∧
      ((civil_from_days z1).2.1 < (civil_from_days z2).2.1 ∨
       ((civil_from_days z1).2.1 = (civil_from_days z2).2.1 ∧
        (civil_from_days z1).2.2 < (civil_from_days z2).2.2))) := by
  have r1 := march_year_range z1
  have r2 := march_year_range z2
  have hy := march_year_mono z1 z2 h
  simp only [civil_from_days]
  generalize (march_year z1).1 = y1 at *
  generalize (march_year z2).1 = y2 at *
  generalize (march_year z1).2 = doy1 at *
  generalize (march_year z2).2 = doy2 at *
  have hM : doy1 < doy2 → _ := month_step doy1 doy2
  have m1 : 0 ≤ (5 * doy1 + 2) / 153 ∧ (5 * doy1 + 2) / 153 ≤ 11 := by omega
  have m2 : 0 ≤ (5 * doy2 + 2) / 153 ∧ (5 * doy2 + 2) / 153 ≤ 11 := by omega
  generalize (5 * doy1 + 2) / 153 = mp1 at *
  generalize (5 * doy2 + 2) / 153 = mp2 at *
  generalize doy1 - (153 * mp1 + 2) / 5 + 1 = d1 at *
  generalize doy2 - (153 * mp2 + 2) / 5 + 1 = d2 at *
  split_ifs <;> omega

/-- The time of day orders the seconds of a day lexicographically. -/
theorem clock_step (a1 a2 : Int) (h : a1 < a2) :
    a1 / 3600 < a2 / 3600 ∨ (a1 / 3600 = a2 / 3600 ∧
    (a1 / 60 % 60 < a2 / 60 % 60 ∨ (a1 / 60 % 60 = a2 / 60 % 60 ∧ a1 % 60 < a2 % 60))) := by
  omega

/-- The fields `gmtime` fills lie in the ranges of the C standard. -/
theorem gmtime_range (t : Int) :
    0 ≤ (gmtime t).tm_sec ∧ (gmtime t).tm_sec ≤ 59 ∧
    0 ≤ (gmtime t).tm_min ∧ (gmtime t).tm_min ≤ 59 ∧
    0 ≤ (gmtime t).tm_hour ∧ (gmtime t).tm_hour ≤ 23 ∧
    1 ≤ (gmtime t).tm_mday ∧ (gmtime t).tm_mday ≤ 31 ∧
    0 ≤ (gmtime t).tm_mon ∧ (gmtime t).tm_mon ≤ 11 := by
  have r := civil_from_days_range (t / 86400 + 719468)
  simp only [gmtime]
  refine ⟨by omega, by omega, by omega, by omega, by omega, by omega, r.2.2.1, r.2.2.2,
    by omega, by omega⟩

/-- A later instant has a later calendar reading. -/
theorem gmtime_strict_mono (t1 t2 : Int) (h : t1 < t2) : tm_lt (gmtime t1) (gmtime t2) := by
  have hD := divmod_step 86400 t1 t2 (by norm_num) h
  simp only [gmtime, tm_lt]
  rcases hD with hlt | ⟨heq, hrem⟩
  · have hc := civil_from_days_mono (t1 / 86400 + 719468) (t2 / 86400 + 719468) (by omega)
    generalize civil_from_days (t1 / 86400 + 719468) = c1 at *
    generalize civil_from_days (t2 / 86400 + 719468) = c2 at *
    omega
  · rw [heq]
    have hk := clock_step (t1 % 86400) (t2 % 86400) hrem
    generalize civil_from_days (t2 / 86400 + 719468) = c2 at *
    generalize t1 % 86400 = r1 at *
    generalize t2 % 86400 = r2 at *
    omega

/-! ## The text of the timestamp -/

/-- Decimal digit characters are ordered as the digits. -/
theorem digitChar_lt (a b : Nat) (ha : a < 10) (hb : b < 10) (h : a < b) :
    Nat.digitChar a < Nat.digitChar b := by
  interval_cases a <;> interval_cases b <;> first | omega | decide

/-- A number from 0 to 99 is converted to its two digits. -/
theorem conv_number_two (n : Int) (h0 : 0 ≤ n) (h1 : n ≤ 99) :
    conv_number 2 n = two_digits n.toNat := by
  obtain ⟨k, rfl⟩ := Int.eq_ofNat_of_zero_le h0
  have hk : k < 100 := by omega
  simp only [Int.toNat_ofNat]
  interval_cases k <;> rfl

/-- One step of the digit loop of `Nat.toDigits`. -/
theorem toDigitsCore_step (fuel n : Nat) (ds : List Char) :
    Nat.toDigitsCore 10 (fuel + 1) n ds =
      if n / 10 = 0 then Nat.digitChar (n % 10) :: ds
      else Nat.toDigitsCore 10 fuel (n / 10) (Nat.digitChar (n % 10) :: ds) := by
  rfl

/-- A number from 1000 to 9999 is converted to its four digits. -/
theorem conv_number_four (n : Int) (h0 : 1000 ≤ n) (h1 : n ≤ 9999) :
    conv_number 1 n = four_digits n.toNat := by
  obtain ⟨k, rfl⟩ := Int.eq_ofNat_of_zero_le (by omega : (0 : Int) ≤ n)
  have hk0 : 1000 ≤ k := by omega
  have hk1 : k ≤ 9999 := by omega
  obtain ⟨f, rfl⟩ : ∃ f, k = f + 3 := ⟨k - 3, by omega⟩
  have e : Nat.toDigits 10 (f + 3) = four_digits (f + 3) := by
    have s1 : (f + 3) / 10 ≠ 0 := by omega
    have s2 : (f + 3) / 10 / 10 ≠ 0 := by omega
    have s3 : (f + 3) / 10 / 10 / 10 ≠ 0 := by omega
    have s4 : (f + 3) / 10 / 10 / 10 / 10 = 0 := by omega
    have d1 : (f + 3) / 10 / 10 / 10 % 10 = (f + 3) / 1000 := by omega
    have d2 : (f + 3) / 10 / 10 % 10 = (f + 3) / 100 % 10 := by omega
    rw [Nat.toDigits, show f + 3 + 1 = (f + 3) + 1 from rfl, toDigitsCore_step, if_neg s1,
      toDigitsCore_step, if_neg s2, toDigitsCore_step, if_neg s3, toDigitsCore_step,
      if_pos s4, d1, d2]
    rfl
  have hn : ¬ ((f + 3 : Nat) : Int) < 0 := by omega
  simp only [conv_number, Int.natAbs_ofNat, Int.toNat_ofNat, e, if_neg hn]
  rfl

/-- A smaller first character makes a smaller list. -/
theorem cons_lt_cons_of_lt (a b : Char) (r s : List Char) (h : a < b) : a :: r < b :: s :=
  List.Lex.rel h

/-- After equal first characters the rests decide. -/
theorem cons_lt_cons_same (a : Char) (r s : List Char) (h : r < s) : a :: r < a :: s :=
  List.Lex.cons h

/-- A common prefix does not change the order of two lists. -/
theorem append_lt_append_left (p r s : List Char) (h : r < s) : p ++ r < p ++ s := by
  induction p with
  | nil => exact h
  | cons c p ih => exact cons_lt_cons_same c _ _ ih

/-- Two-digit texts are ordered as the numbers, whatever follows them. -/
theorem two_digits_lt (a b : Nat) (h : a < b) (hb : b < 100) (r s : List Char) :
    two_digits a ++ r < two_digits b ++ s := by
  simp only [two_digits, List.cons_append, List.nil_append]
  rcases Nat.lt_or_ge (a / 10) (b / 10) with h1 | h1
  · exact cons_lt_cons_of_lt _ _ _ _ (digitChar_lt _ _ (by omega) (by omega) h1)
  · have e : a / 10 = b / 10 := by omega
    rw [e]
    exact cons_lt_cons_same _ _ _
      (cons_lt_cons_of_lt _ _ _ _ (digitChar_lt _ _ (by omega) (by omega) (by omega)))

/-- Four-digit texts are ordered as the numbers, whatever follows them. -/
theorem four_digits_lt (a b : Nat) (h : a < b) (hb : b < 10000) (r s : List Char) :
    four_digits a ++ r < four_digits b ++ s := by
  simp only [four_digits, List.cons_append, List.nil_append]
  rcases Nat.lt_or_ge (a / 1000) (b / 1000) with h1 | h1
  · exact cons_lt_cons_of_lt _ _ _ _ (digitChar_lt _ _ (by omega) (by omega) h1)
  · have e1 : a / 1000 = b / 1000 := by omega
    rw [e1]
    refine cons_lt_cons_same _ _ _ ?_
    rcases Nat.lt_or_ge (a / 100 % 10) (b / 100 % 10) with h2 | h2
    · exact cons_lt_cons_of_lt _ _ _ _ (digitChar_lt _ _ (by omega) (by omega) h2)
    · have e2 : a / 100 % 10 = b / 100 % 10 := by omega
      rw [e2]
      refine cons_lt_cons_same _ _ _ ?_
      rcases Nat.lt_or_ge (a / 10 % 10) (b / 10 % 10) with h3 | h3
      · exact cons_lt_cons_of_lt _ _ _ _ (digitChar_lt _ _ (by omega) (by omega) h3)
      · have e3 : a / 10 % 10 = b / 10 % 10 := by omega
        rw [e3]
        exact cons_lt_cons_same _ _ _
          (cons_lt_cons_of_lt _ _ _ _ (digitChar_lt _ _ (by omega) (by omega) (by omega)))

/-- A decimal digit character is a digit and takes one byte. -/
theorem digitChar_digit (d : Nat) (h : d < 10) :
    (Nat.digitChar d).isDigit = true ∧ (Nat.digitChar d).utf8Size = 1 := by
  interval_cases d <;> decide

/-- The text of the timestamp of a calendar reading in range. -/
theorem strftime_in_range (a : tm) (h : tm_in_range a) :
    strftime_Y_m_d_H_M_S a =
      String.mk (four_digits (a.tm_year + 1900).toNat ++ '-' ::
        (two_digits (a.tm_mon + 1).toNat ++ '-' :: (two_digits a.tm_mday.toNat ++ ' ' ::
        (two_digits a.tm_hour.toNat ++ ':' :: (two_digits a.tm_min.toNat ++ ':' ::
        (two_digits a.tm_sec.toNat ++ [])))))) := by
  obtain ⟨h1, h2, h3, h4, h5, h6, h7, h8, h9, h10, h11, h12⟩ := h
  rw [strftime_Y_m_d_H_M_S, conv_number_four _ h1 h2, conv_number_two _ (by omega) (by omega),
    conv_number_two _ (by omega) (by omega : a.tm_mday ≤ 99),
    conv_number_two _ h7 (by omega), conv_number_two _ h9 (by omega),
    conv_number_two _ h11 (by omega)]
  simp only [List.append_assoc, List.append_nil, List.cons_append]

/-- The timestamp of a calendar reading in range has the fixed format, 19
characters and 19 bytes. -/
theorem strftime_format (a : tm) (h : tm_in_range a) :
    timestamp_format (strftime_Y_m_d_H_M_S a) = true ∧
    (strftime_Y_m_d_H_M_S a).length = 19 ∧
    (strftime_Y_m_d_H_M_S a).utf8ByteSize = 19 := by
  rw [strftime_in_range a h]
  obtain ⟨h1, h2, h3, h4, h5, h6, h7, h8, h9, h10, h11, h12⟩ := h
  have y1 := digitChar_digit ((a.tm_year + 1900).toNat / 1000) (by omega)
  have y2 := digitChar_digit ((a.tm_year + 1900).toNat / 100 % 10) (by omega)
  have y3 := digitChar_digit ((a.tm_year + 1900).toNat / 10 % 10) (by omega)
  have y4 := digitChar_digit ((a.tm_year + 1900).toNat % 10) (by omega)
  have m1 := digitChar_digit ((a.tm_mon + 1).toNat / 10) (by omega)
  have m2 := digitChar_digit ((a.tm_mon + 1).toNat % 10) (by omega)
  have d1 := digitChar_digit (a.tm_mday.toNat / 10) (by omega)
  have d2 := digitChar_digit (a.tm_mday.toNat % 10) (by omega)
  have o1 := digitChar_digit (a.tm_hour.toNat / 10) (by omega)
  have o2 := digitChar_digit (a.tm_hour.toNat % 10) (by omega)
  have n1 := digitChar_digit (a.tm_min.toNat / 10) (by omega)
  have n2 := digitChar_digit (a.tm_min.toNat % 10) (by omega)
  have s1 := digitChar_digit (a.tm_sec.toNat / 10) (by omega)
  have s2 := digitChar_digit (a.tm_sec.toNat % 10) (by omega)
  refine ⟨?_, rfl, ?_⟩
  · simp [timestamp_format, four_digits, two_digits, y1.1, y2.1, y3.1, y4.1, m1.1, m2.1,
      d1.1, d2.1, o1.1, o2.1, n1.1, n2.1, s1.1, s2.1]
  · have p1 : '-'.utf8Size = 1 := by decide
    have p2 : ' '.utf8Size = 1 := by decide
    have p3 : ':'.utf8Size = 1 := by decide
    simp [String.utf8ByteSize, String.utf8ByteSize.go, four_digits, two_digits, y1.2, y2.2,
      y3.2, y4.2, m1.2, m2.2, d1.2, d2.2, o1.2, o2.2, n1.2, n2.2, s1.2, s2.2, p1, p2, p3]

/-- Timestamps of calendar readings in range are ordered as the readings. -/
theorem strftime_lt (a b : tm) (ha : tm_in_range a) (hb : tm_in_range b) (h : tm_lt a b) :
    strftime_Y_m_d_H_M_S a < strftime_Y_m_d_H_M_S b := by
  rw [strftime_in_range a ha, strftime_in_range b hb, String.lt_iff_toList_lt]
  show (_ : List Char) < _
  obtain ⟨a1, a2, a3, a4, a5, a6, a7, a8, a9, a10, a11, a12⟩ := ha
  obtain ⟨b1, b2, b3, b4, b5, b6, b7, b8, b9, b10, b11, b12⟩ := hb
  rcases h with h | ⟨e, h⟩
  · exact four_digits_lt _ _ (by omega) (by omega) _ _
  rw [e]
  refine append_lt_append_left _ _ _ (cons_lt_cons_same _ _ _ ?_)
  rcases h with h | ⟨e, h⟩
  · exact two_digits_lt _ _ (by omega) (by omega) _ _
  rw [e]
  refine append_lt_append_left _ _ _ (cons_lt_cons_same _ _ _ ?_)
  rcases h with h | ⟨e, h⟩
  · exact two_digits_lt _ _ (by omega) (by omega) _ _
  rw [e]
  refine append_lt_append_left _ _ _ (cons_lt_cons_same _ _ _ ?_)
  rcases h with h | ⟨e, h⟩
  · exact two_digits_lt _ _ (by omega) (by omega) _ _
  rw [e]
  refine append_lt_append_left _ _ _ (cons_lt_cons_same _ _ _ ?_)
  rcases h with h | ⟨e, h⟩
  · exact two_digits_lt _ _ (by omega) (by omega) _ _
  rw [e]
  refine append_lt_append_left _ _ _ (cons_lt_cons_same _ _ _ ?_)
  exact two_digits_lt _ _ (by omega) (by omega) _ _

/-- The calendar reading of a clock is in range as soon as its year is. -/
theorem localtime_in_range (utc_offset : Int → Int) (t : Int)
    (h0 : 1000 ≤ (localtime utc_offset t).tm_year + 1900)
    (h1 : (localtime utc_offset t).tm_year + 1900 ≤ 9999) :
    tm_in_range (localtime utc_offset t) := by
  have r := gmtime_range (t + utc_offset t)
  simp only [localtime] at h0 h1 ⊢
  exact ⟨h0, h1, r.2.2.2.2.2.2.2.2.1, r.2.2.2.2.2.2.2.2.2, r.2.2.2.2.2.2.1, r.2.2.2.2.2.2.2.1,
    r.2.2.2.2.1, r.2.2.2.2.2.1, r.2.2.1, r.2.2.2.1, r.1, by omega⟩

/-- C9 fails as stated. A clock reading in the year 10000 gives a timestamp of
20 characters with a five-digit year. And in a zone that leaves summer time,
the reading one second after 02:59:59 local time is stamped 02:00:00: the
later call gets the smaller string. -/
theorem created_at_not_fixed_nor_monotone :
    created_at ⟨253402300800, zone_utc⟩ = "10000-01-01 00:00:00" ∧
    (created_at ⟨253402300800, zone_utc⟩).length = 20 ∧
    created_at ⟨1698541199, zone_madrid_2023⟩ = "2023-10-29 02:59:59" ∧
    created_at ⟨1698541199 + 1, zone_madrid_2023⟩ = "2023-10-29 02:00:00" ∧
    created_at ⟨1698541199 + 1, zone_madrid_2023⟩ < created_at ⟨1698541199, zone_madrid_2023⟩ := by
  refine ⟨by decide, by decide, by decide, by decide, ?_⟩
  rw [String.lt_iff_toList_lt]
  decide

/-- C9, amended: for every clock reading whose local calendar year lies in
1000..9999 the timestamp has the fixed format `YYYY-MM-DD HH:MM:SS` (19
characters: four year digits and two zero-padded digits for month, day, hour,
minute and second, separated by `-`, blank and `:`) and, with its terminating
byte, fits the 32-byte buffer. For two such readings under the same zone
rules, when the local time (the reading plus the UTC offset in force) of the
second is later its timestamp is greater, and when it is not earlier its
timestamp is not smaller; calls whose local times differ, in particular two
calls one second apart under the same UTC offset, get different timestamps. -/
theorem created_at_format_and_order (utc_offset : Int → Int) (t1 t2 : Int)
    (hlo1 : 1000 ≤ (localtime utc_offset t1).tm_year + 1900)
    (hhi1 : (localtime utc_offset t1).tm_year + 1900 ≤ 9999)
    (hlo2 : 1000 ≤ (localtime utc_offset t2).tm_year + 1900)
    (hhi2 : (localtime utc_offset t2).tm_year + 1900 ≤ 9999) :
    timestamp_format (created_at ⟨t1, utc_offset⟩) = true ∧
    (created_at ⟨t1, utc_offset⟩).length = 19 ∧
    (created_at ⟨t1, utc_offset⟩).utf8ByteSize + 1 ≤ 32 ∧
    (t1 + utc_offset t1 < t2 + utc_offset t2 →
      created_at ⟨t1, utc_offset⟩ < created_at ⟨t2, utc_offset⟩) ∧
    (t1 + utc_offset t1 ≤ t2 + utc_offset t2 →
      created_at ⟨t1, utc_offset⟩ ≤ created_at ⟨t2, utc_offset⟩) ∧
    (t1 + utc_offset t1 ≠ t2 + utc_offset t2 →
      created_at ⟨t1, utc_offset⟩ ≠ created_at ⟨t2, utc_offset⟩) ∧
    (utc_offset t1 = utc_offset t2 → t2 = t1 + 1 →
      created_at ⟨t1, utc_offset⟩ ≠ created_at ⟨t2, utc_offset⟩) := by
  have r1 := localtime_in_range utc_offset t1 hlo1 hhi1
  have r2 := localtime_in_range utc_offset t2 hlo2 hhi2
  have f1 := strftime_format _ r1
  have key : t1 + utc_offset t1 < t2 + utc_offset t2 →
      created_at ⟨t1, utc_offset⟩ < created_at ⟨t2, utc_offset⟩ := by
    intro hlt
    exact strftime_lt _ _ r1 r2 (gmtime_strict_mono _ _ hlt)
  have key' : t2 + utc_offset t2 < t1 + utc_offset t1 →
      created_at ⟨t2, utc_offset⟩ < created_at ⟨t1, utc_offset⟩ := by
    intro hlt
    exact strftime_lt _ _ r2 r1 (gmtime_strict_mono _ _ hlt)
  refine ⟨f1.1, f1.2.1, ?_, key, ?_, ?_, ?_⟩
  · have := f1.2.2
    simp only [created_at]
    omega
  · intro hle
    rcases lt_or_eq_of_le hle with hlt | heq
    · exact le_of_lt (key hlt)
    · simp only [created_at, localtime, heq]
      exact le_refl _
  · intro hne
    rcases lt_or_gt_of_ne hne with hlt | hgt
    · exact ne_of_lt (key hlt)
    · exact ne_of_gt (key' hgt)
  · intro ho ht
    exact ne_of_lt (key (by omega))

/-- C9 amended, at a concrete input: the readings 0 and 1 in a zone without
offset fall in 1970; they are stamped in the fixed format and the second
timestamp is the greater. -/
theorem created_at_format_and_order_witness :
    timestamp_format (created_at ⟨0, zone_utc⟩) = true ∧
    created_at ⟨0, zone_utc⟩ < created_at ⟨1, zone_utc⟩ ∧
    created_at ⟨0, zone_utc⟩ ≠ created_at ⟨1, zone_utc⟩ :=
  ⟨(created_at_format_and_order zone_utc 0 1 (by decide) (by decide) (by decide)
      (by decide)).1,
   (created_at_format_and_order zone_utc 0 1 (by decide) (by decide) (by decide)
      (by decide)).2.2.2.1 (by decide),
   (created_at_format_and_order zone_utc 0 1 (by decide) (by decide) (by decide)
      (by decide)).2.2.2.2.2.2 rfl rfl⟩

/-- The calendar model read at known instants: the epoch, the second before
it, the leap day of 2000, and the last day of February and the first of March
of 2100, which is not a leap year. -/
theorem gmtime_known_dates :
    gmtime 0 = ⟨0, 0, 0, 1, 0, 70⟩ ∧
    gmtime (-1) = ⟨59, 59, 23, 31, 11, 69⟩ ∧
    gmtime 951782400 = ⟨0, 0, 0, 29, 1, 100⟩ ∧
    gmtime 4107456000 = ⟨0, 0, 0, 28, 1, 200⟩ ∧
    gmtime (4107456000 + 86400) = ⟨0, 0, 0, 1, 2, 200⟩ := by
  decide

end MongoUtils
